import Mathlib

/-!
Verification of the `odb` package (a Go client for the Opendatabot REST API,
file `odb.go`) against its natural-language specification.

The Go source is shallowly embedded as follows.

* A Go `map[string]string` is embedded as an association list
  (`Smap := List (String × String)`) whose keys are unique whenever the list
  models an actual Go map (Go maps cannot hold duplicate keys); theorems that
  need uniqueness take it as a `Nodup` hypothesis.  Go map assignment
  `m[k] = v` is `goMapSet`, Go map lookup is `mapGet`.
* `net/url` query encoding (`url.Values.Encode` inside `buildQueryParams`) is
  embedded exactly: one `k=v` component per map entry, keys sorted in byte
  order, keys and values escaped with `queryEscape`, components joined by `&`.
  `queryEscape` implements Go's `url.QueryEscape` (unreserved bytes kept,
  space becomes `+`, every other UTF-8 byte percent-encoded with upper-case
  hex).
* `url.Parse`/`URL.String` round-tripping inside `buildQueryParams` is elided:
  for every catalog endpoint (an `https://opendatabot.com/...` constant, with
  substituted path arguments) that contains only characters in `urlSafe`,
  `url.Parse` succeeds and `String()` returns the input unchanged, so
  `buildQueryParams` reduces to appending `?` and the encoded query.  Theorems
  that quantify over an arbitrary endpoint take `urlSafe endpoint = true` as a
  hypothesis to stay inside the domain where this elision is exact.
* The HTTP transport (`http.Get`, the package-level default client) is an
  oracle `Http : String → HttpOutcome` passed explicitly; `Do` records the
  requested URL in a `trace` so that "no network I/O" is the statement
  `trace = []`.
* `fmt.Sprintf`, used by the endpoint methods only with `%s` verbs, is
  embedded by `sprintf` for `%s`-only format strings (other characters are
  copied verbatim); Go's arity-mismatch markers `%!s(MISSING)` and
  `%!(EXTRA ...)` are reproduced.  `slotsOnly` delimits the format strings on
  which this embedding agrees with Go.
* `encoding/json` decoding into the `GovernmentCompany` struct is embedded
  over a parsed-JSON value tree (`Json`), mirroring Go's object-driven loop:
  object keys are processed in order, a key is matched against a field tag
  ASCII-case-insensitively, unmatched keys are skipped, `null` leaves the
  field untouched, a matched value of the wrong kind is an error, and fields
  never mentioned keep their zero values.  JSON numbers are embedded as `Int`
  (every number appearing in the claims is integral).  Decode error message
  texts are not reproduced verbatim (no claim inspects them).
* Go errors are embedded as `OdbError`, one constructor per `return`-site
  class; `OdbError.goMessage` recovers the exact Go error string (using
  `statusText`, a transcription of Go's `http.StatusText` table).
-/

/-- Association-list embedding of Go's `map[string]string`. -/
abbrev Smap : Type := List (String × String)

/-- Go map assignment `m[k] = v`: replaces the binding of `k` if present,
otherwise appends a new binding. -/
def goMapSet : Smap → String → String → Smap
  | [], k, v => [(k, v)]
  | (k', v') :: rest, k, v =>
    if k' = k then (k, v) :: rest else (k', v') :: goMapSet rest k v

/-- Go map lookup `m[k]` (the found value, or `none`). -/
def mapGet : Smap → String → Option String
  | [], _ => none
  | (k', v') :: rest, k => if k' = k then some v' else mapGet rest k

/-- Byte-order comparison of strings, as used by the `sort.Strings` call
inside Go's `url.Values.Encode` (UTF-8 byte order coincides with code-point
order). -/
def strLeChars : List Char → List Char → Bool
  | [], _ => true
  | _ :: _, [] => false
  | a :: as, b :: bs =>
    if a.toNat < b.toNat then true
    else if b.toNat < a.toNat then false
    else strLeChars as bs

/-- Key ordering for query-parameter sorting. -/
def keyLe (a b : String × String) : Prop := strLeChars a.1.data b.1.data = true

instance : DecidableRel keyLe := fun a b => by unfold keyLe; infer_instance

/-- Sorting of the query parameters by key, as `url.Values.Encode` does. -/
def sortByKey (l : Smap) : Smap := List.insertionSort keyLe l

/-- UTF-8 byte sequence of a character (Go strings are UTF-8 byte strings). -/
def utf8Bytes (c : Char) : List Nat :=
  let n := c.toNat
  if n < 128 then [n]
  else if n < 2048 then [192 + n / 64, 128 + n % 64]
  else if n < 65536 then [224 + n / 4096, 128 + n / 64 % 64, 128 + n % 64]
  else [240 + n / 262144, 128 + n / 4096 % 64, 128 + n / 64 % 64, 128 + n % 64]

/-- Upper-case hex digit, as `url.QueryEscape` uses. -/
def hexDigit (n : Nat) : Char :=
  if n < 10 then Char.ofNat (48 + n) else Char.ofNat (55 + n)

/-- Percent-escaping of one byte. -/
def escapeByte (b : Nat) : List Char := ['%', hexDigit (b / 16), hexDigit (b % 16)]

/-- Whether a byte stays unescaped under `url.QueryEscape` (unreserved
characters: ASCII alphanumerics and `-`, `_`, `.`, `~`). -/
def queryUnreserved (b : Nat) : Bool :=
  (48 ≤ b && b ≤ 57) || (65 ≤ b && b ≤ 90) || (97 ≤ b && b ≤ 122) ||
    b = 45 || b = 95 || b = 46 || b = 126

/-- Go's `url.QueryEscape`: unreserved bytes kept, space encoded as `+`,
every other byte percent-encoded. -/
def queryEscape (s : String) : String :=
  String.mk ((s.data.flatMap utf8Bytes).flatMap fun b =>
    if queryUnreserved b then [Char.ofNat b]
    else if b = 32 then ['+']
    else escapeByte b)

/-- The `k=v` components of the encoded query string, in the order
`url.Values.Encode` emits them (sorted by key, key and value escaped). -/
def queryComponents (params : Smap) : List String :=
  (sortByKey params).map fun kv => queryEscape kv.1 ++ "=" ++ queryEscape kv.2

/-- Result of `url.Values.Encode` on the query parameters. -/
def encodeQuery (params : Smap) : String :=
  String.intercalate "&" (queryComponents params)

/-- Embedding of `buildQueryParams`: parse the endpoint, set the raw query to
the encoded parameters, and render the URL.  For `urlSafe` endpoints the
parse/render round trip is the identity, so the result is the endpoint
followed by `?` and the encoded query (no `?` when the query is empty, which
is how `URL.String` behaves). -/
def buildQueryParams (endpoint : String) (params : Smap) : String :=
  let q := encodeQuery params
  if q = "" then endpoint else endpoint ++ "?" ++ q

/-- Conservative domain on which the `url.Parse`/`String()` elision inside
`buildQueryParams` is exact: ASCII alphanumerics plus `/ : . - _ ~`.  Every
catalog endpoint constant, with arbitrary alphanumeric identifiers
substituted, is `urlSafe`. -/
def urlSafe (s : String) : Bool :=
  s.data.all fun c =>
    c.isAlphanum || c = '/' || c = ':' || c = '.' || c = '-' || c = '_' || c = '~'

/-- Embedding of the `Settings` struct.  `Client *http.Client` is a transport
handle the package never reads; it is embedded as an abstract value
(`Option Nat`, `none` being the zero value `nil`). -/
structure Settings where
  ApiKey : String
  Client : Option Nat
deriving DecidableEq

/-- Embedding of `OdbClient`. -/
structure OdbClient where
  Settings : Settings
deriving DecidableEq

/-- Embedding of the `Option` interface.  The source defines exactly one
implementation, `withApiKey` (a string). -/
inductive OdbOption where
  | withApiKey (key : String)
deriving DecidableEq

/-- Embedding of `withApiKey.Apply`: sets the `ApiKey` field. -/
def OdbOption.Apply : OdbOption → Settings → Settings
  | .withApiKey w, o => { o with ApiKey := w }

/-- Embedding of the `WithApiKey` constructor. -/
def WithApiKey (apiKey : String) : OdbOption := .withApiKey apiKey

/-- Embedding of `ApplySettings`: applies each option in order to a fresh
zero-valued `Settings` and always returns it with a `nil` error. -/
def ApplySettings (options : List OdbOption) : Except String Settings :=
  Except.ok (options.foldl (fun s o => o.Apply s) { ApiKey := "", Client := none })

/-- Embedding of `NewOdbClient`. -/
def NewOdbClient (options : List OdbOption) : Except String OdbClient :=
  match ApplySettings options with
  | .error e => .error e
  | .ok settings => .ok { Settings := settings }

/-- Go errors returned by the package, one constructor per `return`-site
class.  `goMessage` recovers the exact `error.Error()` text. -/
inductive OdbError where
  | validation (msg : String)
  | network (msg : String)
  | httpStatus (code : Nat)
  | decode (msg : String)
deriving DecidableEq

/-- Transcription of Go's `http.StatusText` table (`net/http/status.go`);
unknown codes give the empty string. -/
def statusText (code : Nat) : String :=
  match code with
  | 100 => "Continue"
  | 101 => "Switching Protocols"
  | 102 => "Processing"
  | 103 => "Early Hints"
  | 200 => "OK"
  | 201 => "Created"
  | 202 => "Accepted"
  | 203 => "Non-Authoritative Information"
  | 204 => "No Content"
  | 205 => "Reset Content"
  | 206 => "Partial Content"
  | 207 => "Multi-Status"
  | 208 => "Already Reported"
  | 226 => "IM Used"
  | 300 => "Multiple Choices"
  | 301 => "Moved Permanently"
  | 302 => "Found"
  | 303 => "See Other"
  | 304 => "Not Modified"
  | 305 => "Use Proxy"
  | 307 => "Temporary Redirect"
  | 308 => "Permanent Redirect"
  | 400 => "Bad Request"
  | 401 => "Unauthorized"
  | 402 => "Payment Required"
  | 403 => "Forbidden"
  | 404 => "Not Found"
  | 405 => "Method Not Allowed"
  | 406 => "Not Acceptable"
  | 407 => "Proxy Authentication Required"
  | 408 => "Request Timeout"
  | 409 => "Conflict"
  | 410 => "Gone"
  | 411 => "Length Required"
  | 412 => "Precondition Failed"
  | 413 => "Request Entity Too Large"
  | 414 => "Request URI Too Long"
  | 415 => "Unsupported Media Type"
  | 416 => "Requested Range Not Satisfiable"
  | 417 => "Expectation Failed"
  | 418 => "I\x27m a teapot"
  | 421 => "Misdirected Request"
  | 422 => "Unprocessable Entity"
  | 423 => "Locked"
  | 424 => "Failed Dependency"
  | 425 => "Too Early"
  | 426 => "Upgrade Required"
  | 428 => "Precondition Required"
  | 429 => "Too Many Requests"
  | 431 => "Request Header Fields Too Large"
  | 451 => "Unavailable For Legal Reasons"
  | 500 => "Internal Server Error"
  | 501 => "Not Implemented"
  | 502 => "Bad Gateway"
  | 503 => "Service Unavailable"
  | 504 => "Gateway Timeout"
  | 505 => "HTTP Version Not Supported"
  | 506 => "Variant Also Negotiates"
  | 507 => "Insufficient Storage"
  | 508 => "Loop Detected"
  | 510 => "Not Extended"
  | 511 => "Network Authentication Required"
  | _ => ""

/-- The Go error string of each `OdbError` (`errors.New(...)` texts in the
source; a non-200 status produces `errors.New(http.StatusText(code))`). -/
def OdbError.goMessage : OdbError → String
  | .validation msg => msg
  | .network msg => msg
  | .httpStatus code => statusText code
  | .decode msg => msg

/-- Parsed JSON value; response bodies are embedded in parsed form.  Numbers
are embedded as `Int` (every number appearing in the claims is integral). -/
inductive Json where
  | null
  | bool (b : Bool)
  | num (n : Int)
  | str (s : String)
  | arr (items : List Json)
  | obj (fields : List (String × Json))

/-- Outcome of one `http.Get`: a transport-level failure or a response with a
status code and a (parsed) body. -/
inductive HttpOutcome where
  | failure (msg : String)
  | response (status : Nat) (body : Json)

/-- The HTTP transport oracle standing for the package-level `http.Get`. -/
abbrev Http : Type := String → HttpOutcome

deriving instance DecidableEq for Except

/-- Result of `Do`: the Go return value, the final state of the
caller-supplied params map (Go maps are passed by reference and `Do` writes
into it), and the list of URLs requested over the network. -/
structure DoResult (α : Type) where
  result : Except OdbError α
  finalParams : Smap
  trace : List String
deriving DecidableEq

/-- Result of an endpoint method: the Go `(response, err)` pair and the list
of URLs requested over the network. -/
structure CallResult (α : Type) where
  result : Except OdbError α
  trace : List String
deriving DecidableEq

/-- Forgetting the params-map component when a method returns. -/
def DoResult.toCall {α : Type} (r : DoResult α) : CallResult α :=
  { result := r.result, trace := r.trace }

/-- Embedding of `checkApiKey`. -/
def checkApiKey (odb : OdbClient) : Except OdbError Unit :=
  if odb.Settings.ApiKey = "" then .error (.validation "ApiKey is not specified")
  else .ok ()

/-- Embedding of `checkNotEmpty`. -/
def checkNotEmpty (id : String) : Except OdbError Unit :=
  if id = "" then .error (.validation "Id is not specified") else .ok ()

/-- The credential-injection step at the top of `Do`:
`if odb.Settings.ApiKey != "" { params["apiKey"] = odb.Settings.ApiKey }`. -/
def injectApiKey (odb : OdbClient) (params : Smap) : Smap :=
  if odb.Settings.ApiKey = "" then params
  else goMapSet params "apiKey" odb.Settings.ApiKey

/-- The URL `Do` hands to `http.Get`. -/
def requestUrl (odb : OdbClient) (endpoint : String) (params : Smap) : String :=
  buildQueryParams endpoint (injectApiKey odb params)

/-- Embedding of `OdbClient.Do`.  The caller names the decode target through
`decode` (the source passes an output pointer to `json.Unmarshal`; endpoint
methods whose response struct no claim inspects keep `decode` abstract). -/
def OdbClient.Do {α : Type} (odb : OdbClient) (endpoint : String) (params : Smap)
    (decode : Json → Except String α) (http : Http) : DoResult α :=
  let fp := injectApiKey odb params
  let uri := buildQueryParams endpoint fp
  match http uri with
  | .failure msg => { result := .error (.network msg), finalParams := fp, trace := [uri] }
  | .response status body =>
    if status ≠ 200 then
      { result := .error (.httpStatus status), finalParams := fp, trace := [uri] }
    else
      match decode body with
      | .error msg => { result := .error (.decode msg), finalParams := fp, trace := [uri] }
      | .ok v => { result := .ok v, finalParams := fp, trace := [uri] }

/-- Go's marker for surplus `Sprintf` arguments, e.g.
`%!(EXTRA string=a, string=b)`. -/
def extraChunk (args : List String) : String :=
  "%!(EXTRA " ++ String.intercalate ", " (args.map (fun s => "string=" ++ s)) ++ ")"

/-- Embedding of `fmt.Sprintf` for `%s`-only format strings, as the list of
output pieces: each `%s` consumes one argument in order, a `%s` with no
argument left emits `%!s(MISSING)`, leftover arguments are reported in a
final `%!(EXTRA ...)` chunk, and every other character is copied. -/
def sprintfChunks : List Char → List String → List String
  | [], [] => []
  | [], a :: args => [extraChunk (a :: args)]
  | [c], [] => [c.toString]
  | [c], a :: args => [c.toString, extraChunk (a :: args)]
  | c1 :: c2 :: rest, [] =>
    if c1 = '%' ∧ c2 = 's' then "%!s(MISSING)" :: sprintfChunks rest []
    else c1.toString :: sprintfChunks (c2 :: rest) []
  | c1 :: c2 :: rest, a :: args' =>
    if c1 = '%' ∧ c2 = 's' then a :: sprintfChunks rest args'
    else c1.toString :: sprintfChunks (c2 :: rest) (a :: args')

/-- Embedding of `fmt.Sprintf` (`%s` verbs only) as a string. -/
def sprintf (t : String) (args : List String) : String :=
  String.join (sprintfChunks t.data args)

/-- Number of `%s` substitution slots in a format string. -/
def countSlots : List Char → Nat
  | c1 :: c2 :: rest =>
    if c1 = '%' ∧ c2 = 's' then countSlots rest + 1 else countSlots (c2 :: rest)
  | _ => 0

/-- Format strings in which every `%` starts a `%s` verb; on these (which
include every catalog endpoint template) `sprintf` agrees with Go's
`fmt.Sprintf`. -/
def slotsOnly : List Char → Bool
  | [] => true
  | [c] => c ≠ '%'
  | c1 :: c2 :: rest =>
    if c1 = '%' then c2 = 's' && slotsOnly rest else slotsOnly (c2 :: rest)

/-- Endpoint constant from the source. -/
def governmentCompaniesEndpoint : String := "https://opendatabot.com/api/v2/government-companies"

/-- Endpoint template constant from the source. -/
def dpaEndpoint : String := "https://opendatabot.com/api/v2/dpa/%s"

/-- Endpoint template constant from the source. -/
def companyEndpoint : String := "https://opendatabot.com/api/v2/company/%s"

/-- Endpoint template constant from the source. -/
def changesEndpoint : String := "https://opendatabot.com/api/v2/changed/%s"

/-- Endpoint template constant from the source. -/
def wagedebtEndpoint : String := "https://opendatabot.com/api/v2/wagedebt/%s"

/-- Endpoint constant from the source. -/
def auditEndpoint : String := "https://opendatabot.com/api/v2/audit"

/-- Endpoint template constant from the source. -/
def auditByIdEndpoint : String := "https://opendatabot.com/api/v2/audit/%s"

/-- Endpoint constant from the source. -/
def registrationsEndpoint : String := "https://opendatabot.com/api/v2/registrations"

/-- Endpoint template constant from the source. -/
def registrationByIdEndpoint : String := "https://opendatabot.com/api/v2/registrations/%s"

/-- Endpoint constant from the source. -/
def inspectionsEndpoint : String := "https://opendatabot.com/api/v2/inspections"

/-- Endpoint template constant from the source. -/
def inspectionByIdEndpoint : String := "https://opendatabot.com/api/v2/inspections/%s"

/-- Endpoint template constant from the source. -/
def pdfEndpoint : String := "https://opendatabot.com/api/v2/pdf/%s"

/-- Endpoint constant from the source. -/
def permitsEndpoint : String := "https://opendatabot.com/api/v2/permits"

/-- Endpoint constant from the source. -/
def singletaxEndpoint : String := "https://opendatabot.com/api/v2/singletax"

/-- Endpoint constant from the source. -/
def vatEndpoint : String := "https://opendatabot.com/api/v2/vat"

/-- Endpoint constant from the source. -/
def courtEndpoint : String := "https://opendatabot.com/api/v2/court"

/-- Endpoint constant from the source. -/
def institutionsEndpoint : String := "https://opendatabot.com/api/v2/institutions"

/-- Endpoint template constant from the source. -/
def courtByIdEndpoint : String := "https://opendatabot.com/api/v2/court/%s"

/-- Endpoint constant from the source. -/
def scheduleEndpoint : String := "https://opendatabot.com/api/v2/schedule"

/-- Endpoint constant from the source. -/
def accusedEndpoint : String := "https://opendatabot.com/api/v2/accused"

/-- Endpoint template constant from the source. -/
def scheduleByIdEndpoint : String := "https://opendatabot.com/api/v2/schedule/%s"

/-- Endpoint constant from the source. -/
def companyCourtsEndpoint : String := "https://opendatabot.com/api/v2/company-courts"

/-- Endpoint template constant from the source. -/
def companyCourtsByTypeEndpoint : String := "https://opendatabot.com/api/v2/company-courts/%s"

/-- Endpoint template constant from the source. -/
def courtCasesEndpoint : String := "https://opendatabot.com/api/v2/court-cases/%s"

/-- Endpoint constant from the source. -/
def transportEndpoint : String := "https://opendatabot.com/api/v2/transport"

/-- Endpoint template constant from the source. -/
def transportByIdEndpoint : String := "https://opendatabot.com/api/v2/transport/%s"

/-- Endpoint constant from the source. -/
def transportLicensesEndpoint : String := "https://opendatabot.com/api/v2/transport-licenses"

/-- Endpoint template constant from the source. -/
def transportLicensesByIdEndpoint : String := "https://opendatabot.com/api/v2/transport-licenses/%s"

/-- Endpoint constant from the source. -/
def genKeyEndpoint : String := "https://opendatabot.com/api/v2/genKey"

/-- Endpoint constant from the source. -/
def statisticsEndpoint : String := "https://opendatabot.com/api/v2/statistics"

/-- Endpoint constant from the source. -/
def alimentEndpoint : String := "https://opendatabot.com/api/v2/aliment"

/-- Endpoint constant from the source. -/
def lawyersEndpoint : String := "https://opendatabot.com/api/v2/lawyers"

/-- Endpoint template constant from the source. -/
def lawyersByIdEndpoint : String := "https://opendatabot.com/api/v2/lawyers/%s"

/-- Endpoint template constant from the source. -/
def corruptOfficialsByIdEndpoint : String := "https://opendatabot.com/api/v2/corrupt-officials/%s"

/-- Endpoint constant from the source. -/
def corruptOfficialsEndpoint : String := "https://opendatabot.com/api/v2/corrupt-officials"

/-- Endpoint constant from the source. -/
def passportEndpoint : String := "https://opendatabot.com/api/v2/passport"

/-- Endpoint constant from the source. -/
def wantedEndpoint : String := "https://opendatabot.com/api/v2/wanted"

/-- Endpoint template constant from the source. -/
def fullPenaltyByNumberEndpoint : String := "https://opendatabot.com/api/v2/full-penalty/%s"

/-- Endpoint template constant from the source. -/
def fullPenaltyDocByNumberEndpoint : String := "https://opendatabot.com/api/v2/full-penalty-doc/%s"

/-- Endpoint constant from the source. -/
def fullPenaltyEndpoint : String := "https://opendatabot.com/api/v2/full-penalty"

/-- Endpoint constant from the source. -/
def performerEndpoint : String := "https://opendatabot.com/api/v2/performer"

/-- Endpoint template constant from the source. -/
def penaltiesByCodeEndpoint : String := "https://opendatabot.com/api/v2/penalties/%s"

/-- Endpoint template constant from the source. -/
def penaltyByNumberEndpoint : String := "https://opendatabot.com/api/v2/penalty/%s"

/-- Endpoint constant from the source. -/
def penaltiesEndpoint : String := "https://opendatabot.com/api/v2/penalties"

/-- Endpoint constant from the source. -/
def koatuuRegionsEndpoint : String := "https://opendatabot.com/api/v2/koatuu/regions"

/-- Endpoint template constant from the source. -/
def koatuuRegionsByCodeEndpoint : String := "https://opendatabot.com/api/v2/koatuu/regions/%s"

/-- Endpoint constant from the source. -/
def realtyEndpoint : String := "https://opendatabot.com/api/v2/realty"

/-- Endpoint template constant from the source. -/
def realtyByIdEndpoint : String := "https://opendatabot.com/api/v2/realty/%s/%s"

/-- Endpoint constant from the source. -/
def realtyResultEndpoint : String := "https://opendatabot.com/api/v2/realty-result"

/-- Endpoint template constant from the source. -/
def realtyReportByNumberEndpoint : String := "https://opendatabot.com/api/v2/realty-report/%s"

/-- Endpoint constant from the source. -/
def timelineEndpoint : String := "https://opendatabot.com/api/v2/timeline"

/-- Embedding of `GetGovernmentCompany`: checks the code, checks the key, then
requests the fixed endpoint with `{"code": code}`. -/
def OdbClient.GetGovernmentCompany {α : Type} (odb : OdbClient) (code : String)
    (decode : Json → Except String α) (http : Http) : CallResult α :=
  match checkNotEmpty code with
  | .error e => { result := .error e, trace := [] }
  | .ok _ =>
    match checkApiKey odb with
    | .error e => { result := .error e, trace := [] }
    | .ok _ => (odb.Do governmentCompaniesEndpoint [("code", code)] decode http).toCall

/-- Embedding of `GetDpa`. -/
def OdbClient.GetDpa {α : Type} (odb : OdbClient) (code : String)
    (decode : Json → Except String α) (http : Http) : CallResult α :=
  match checkNotEmpty code with
  | .error e => { result := .error e, trace := [] }
  | .ok _ =>
    match checkApiKey odb with
    | .error e => { result := .error e, trace := [] }
    | .ok _ => (odb.Do (sprintf dpaEndpoint [code]) [] decode http).toCall

/-- Embedding of `GetCompany`. -/
def OdbClient.GetCompany {α : Type} (odb : OdbClient) (code : String)
    (decode : Json → Except String α) (http : Http) : CallResult α :=
  match checkNotEmpty code with
  | .error e => { result := .error e, trace := [] }
  | .ok _ =>
    match checkApiKey odb with
    | .error e => { result := .error e, trace := [] }
    | .ok _ => (odb.Do (sprintf companyEndpoint [code]) [] decode http).toCall

/-- Embedding of `GetChanges` (passes the caller-supplied params map on). -/
def OdbClient.GetChanges {α : Type} (odb : OdbClient) (code : String) (params : Smap)
    (decode : Json → Except String α) (http : Http) : CallResult α :=
  match checkNotEmpty code with
  | .error e => { result := .error e, trace := [] }
  | .ok _ =>
    match checkApiKey odb with
    | .error e => { result := .error e, trace := [] }
    | .ok _ => (odb.Do (sprintf changesEndpoint [code]) params decode http).toCall

/-- Embedding of `GetWagedebt`. -/
def OdbClient.GetWagedebt {α : Type} (odb : OdbClient) (code : String)
    (decode : Json → Except String α) (http : Http) : CallResult α :=
  match checkNotEmpty code with
  | .error e => { result := .error e, trace := [] }
  | .ok _ =>
    match checkApiKey odb with
    | .error e => { result := .error e, trace := [] }
    | .ok _ => (odb.Do (sprintf wagedebtEndpoint [code]) [] decode http).toCall

/-- Embedding of `GetAudit`. -/
def OdbClient.GetAudit {α : Type} (odb : OdbClient) (params : Smap)
    (decode : Json → Except String α) (http : Http) : CallResult α :=
  match checkApiKey odb with
  | .error e => { result := .error e, trace := [] }
  | .ok _ => (odb.Do auditEndpoint params decode http).toCall

/-- Embedding of `GetAuditById`. -/
def OdbClient.GetAuditById {α : Type} (odb : OdbClient) (id : String)
    (decode : Json → Except String α) (http : Http) : CallResult α :=
  match checkNotEmpty id with
  | .error e => { result := .error e, trace := [] }
  | .ok _ =>
    match checkApiKey odb with
    | .error e => { result := .error e, trace := [] }
    | .ok _ => (odb.Do (sprintf auditByIdEndpoint [id]) [] decode http).toCall

/-- Embedding of `GetRegistrations`. -/
def OdbClient.GetRegistrations {α : Type} (odb : OdbClient) (params : Smap)
    (decode : Json → Except String α) (http : Http) : CallResult α :=
  match checkApiKey odb with
  | .error e => { result := .error e, trace := [] }
  | .ok _ => (odb.Do registrationsEndpoint params decode http).toCall

/-- Embedding of `GetRegistrationById`. -/
def OdbClient.GetRegistrationById {α : Type} (odb : OdbClient) (id : String)
    (decode : Json → Except String α) (http : Http) : CallResult α :=
  match checkNotEmpty id with
  | .error e => { result := .error e, trace := [] }
  | .ok _ =>
    match checkApiKey odb with
    | .error e => { result := .error e, trace := [] }
    | .ok _ => (odb.Do (sprintf registrationByIdEndpoint [id]) [] decode http).toCall

/-- Embedding of `GetInspections` (the code goes into the query, not the
path). -/
def OdbClient.GetInspections {α : Type} (odb : OdbClient) (code : String)
    (decode : Json → Except String α) (http : Http) : CallResult α :=
  match checkNotEmpty code with
  | .error e => { result := .error e, trace := [] }
  | .ok _ =>
    match checkApiKey odb with
    | .error e => { result := .error e, trace := [] }
    | .ok _ => (odb.Do inspectionsEndpoint [("code", code)] decode http).toCall

/-- Embedding of `GetInspectionById`. -/
def OdbClient.GetInspectionById {α : Type} (odb : OdbClient) (id : String)
    (decode : Json → Except String α) (http : Http) : CallResult α :=
  match checkNotEmpty id with
  | .error e => { result := .error e, trace := [] }
  | .ok _ =>
    match checkApiKey odb with
    | .error e => { result := .error e, trace := [] }
    | .ok _ => (odb.Do (sprintf inspectionByIdEndpoint [id]) [] decode http).toCall

/-- Embedding of `GetPdf`. -/
def OdbClient.GetPdf {α : Type} (odb : OdbClient) (code : String)
    (decode : Json → Except String α) (http : Http) : CallResult α :=
  match checkNotEmpty code with
  | .error e => { result := .error e, trace := [] }
  | .ok _ =>
    match checkApiKey odb with
    | .error e => { result := .error e, trace := [] }
    | .ok _ => (odb.Do (sprintf pdfEndpoint [code]) [] decode http).toCall

/-- Embedding of `GetPermits`. -/
def OdbClient.GetPermits {α : Type} (odb : OdbClient) (params : Smap)
    (decode : Json → Except String α) (http : Http) : CallResult α :=
  match checkApiKey odb with
  | .error e => { result := .error e, trace := [] }
  | .ok _ => (odb.Do permitsEndpoint params decode http).toCall

/-- Embedding of `GetSingletax`. -/
def OdbClient.GetSingletax {α : Type} (odb : OdbClient) (params : Smap)
    (decode : Json → Except String α) (http : Http) : CallResult α :=
  match checkApiKey odb with
  | .error e => { result := .error e, trace := [] }
  | .ok _ => (odb.Do singletaxEndpoint params decode http).toCall

/-- Embedding of `GetVat`. -/
def OdbClient.GetVat {α : Type} (odb : OdbClient) (params : Smap)
    (decode : Json → Except String α) (http : Http) : CallResult α :=
  match checkApiKey odb with
  | .error e => { result := .error e, trace := [] }
  | .ok _ => (odb.Do vatEndpoint params decode http).toCall

/-- Embedding of `GetCourt`. -/
def OdbClient.GetCourt {α : Type} (odb : OdbClient) (params : Smap)
    (decode : Json → Except String α) (http : Http) : CallResult α :=
  match checkApiKey odb with
  | .error e => { result := .error e, trace := [] }
  | .ok _ => (odb.Do courtEndpoint params decode http).toCall

/-- Embedding of `GetInstitutions` (no credential check in the source). -/
def OdbClient.GetInstitutions {α : Type} (odb : OdbClient) (params : Smap)
    (decode : Json → Except String α) (http : Http) : CallResult α :=
  (odb.Do institutionsEndpoint params decode http).toCall

/-- Embedding of `GetCourtById` (no emptiness check on `id` in the source). -/
def OdbClient.GetCourtById {α : Type} (odb : OdbClient) (id : String)
    (decode : Json → Except String α) (http : Http) : CallResult α :=
  match checkApiKey odb with
  | .error e => { result := .error e, trace := [] }
  | .ok _ => (odb.Do (sprintf courtByIdEndpoint [id]) [] decode http).toCall

/-- Embedding of `GetSchedule`. -/
def OdbClient.GetSchedule {α : Type} (odb : OdbClient) (params : Smap)
    (decode : Json → Except String α) (http : Http) : CallResult α :=
  match checkApiKey odb with
  | .error e => { result := .error e, trace := [] }
  | .ok _ => (odb.Do scheduleEndpoint params decode http).toCall

/-- Embedding of `GetAccused`. -/
def OdbClient.GetAccused {α : Type} (odb : OdbClient) (params : Smap)
    (decode : Json → Except String α) (http : Http) : CallResult α :=
  match checkApiKey odb with
  | .error e => { result := .error e, trace := [] }
  | .ok _ => (odb.Do accusedEndpoint params decode http).toCall

/-- Embedding of `GetScheduleById` (no emptiness check on `id`). -/
def OdbClient.GetScheduleById {α : Type} (odb : OdbClient) (id : String)
    (decode : Json → Except String α) (http : Http) : CallResult α :=
  match checkApiKey odb with
  | .error e => { result := .error e, trace := [] }
  | .ok _ => (odb.Do (sprintf scheduleByIdEndpoint [id]) [] decode http).toCall

/-- Embedding of `GetCompanyCourts`. -/
def OdbClient.GetCompanyCourts {α : Type} (odb : OdbClient) (code : String)
    (decode : Json → Except String α) (http : Http) : CallResult α :=
  match checkApiKey odb with
  | .error e => { result := .error e, trace := [] }
  | .ok _ => (odb.Do companyCourtsEndpoint [("code", code)] decode http).toCall

/-- Embedding of `GetCompanyCourtsByType` (no emptiness check on
`courtsType`; writes `params["code"] = code` before the request). -/
def OdbClient.GetCompanyCourtsByType {α : Type} (odb : OdbClient)
    (courtsType : String) (code : String) (params : Smap)
    (decode : Json → Except String α) (http : Http) : CallResult α :=
  match checkApiKey odb with
  | .error e => { result := .error e, trace := [] }
  | .ok _ =>
    (odb.Do (sprintf companyCourtsByTypeEndpoint [courtsType])
      (goMapSet params "code" code) decode http).toCall

/-- Embedding of `GetCourtCases` (no emptiness check on `number`). -/
def OdbClient.GetCourtCases {α : Type} (odb : OdbClient) (number : String) (params : Smap)
    (decode : Json → Except String α) (http : Http) : CallResult α :=
  match checkApiKey odb with
  | .error e => { result := .error e, trace := [] }
  | .ok _ => (odb.Do (sprintf courtCasesEndpoint [number]) params decode http).toCall

/-- Embedding of `GetTransports`. -/
def OdbClient.GetTransports {α : Type} (odb : OdbClient) (params : Smap)
    (decode : Json → Except String α) (http : Http) : CallResult α :=
  match checkApiKey odb with
  | .error e => { result := .error e, trace := [] }
  | .ok _ => (odb.Do transportEndpoint params decode http).toCall

/-- Embedding of `GetTransportById` (no emptiness check on `id`). -/
def OdbClient.GetTransportById {α : Type} (odb : OdbClient) (id : String)
    (decode : Json → Except String α) (http : Http) : CallResult α :=
  match checkApiKey odb with
  | .error e => { result := .error e, trace := [] }
  | .ok _ => (odb.Do (sprintf transportByIdEndpoint [id]) [] decode http).toCall

/-- Embedding of `GetTransportLicenses`. -/
def OdbClient.GetTransportLicenses {α : Type} (odb : OdbClient) (params : Smap)
    (decode : Json → Except String α) (http : Http) : CallResult α :=
  match checkApiKey odb with
  | .error e => { result := .error e, trace := [] }
  | .ok _ => (odb.Do transportLicensesEndpoint params decode http).toCall

/-- Embedding of `GetTransportLicensesById` (no emptiness check on `id`). -/
def OdbClient.GetTransportLicensesById {α : Type} (odb : OdbClient) (id : String)
    (decode : Json → Except String α) (http : Http) : CallResult α :=
  match checkApiKey odb with
  | .error e => { result := .error e, trace := [] }
  | .ok _ => (odb.Do (sprintf transportLicensesByIdEndpoint [id]) [] decode http).toCall

/-- Embedding of `GetGenKey`. -/
def OdbClient.GetGenKey {α : Type} (odb : OdbClient) (salt : String) (id : String)
    (decode : Json → Except String α) (http : Http) : CallResult α :=
  match checkApiKey odb with
  | .error e => { result := .error e, trace := [] }
  | .ok _ => (odb.Do genKeyEndpoint [("salt", salt), ("id", id)] decode http).toCall

/-- Embedding of `GetStatistics`. -/
def OdbClient.GetStatistics {α : Type} (odb : OdbClient)
    (decode : Json → Except String α) (http : Http) : CallResult α :=
  match checkApiKey odb with
  | .error e => { result := .error e, trace := [] }
  | .ok _ => (odb.Do statisticsEndpoint [] decode http).toCall

/-- Embedding of `GetAliment` (writes `params["pib"] = pib`). -/
def OdbClient.GetAliment {α : Type} (odb : OdbClient) (pib : String) (params : Smap)
    (decode : Json → Except String α) (http : Http) : CallResult α :=
  match checkApiKey odb with
  | .error e => { result := .error e, trace := [] }
  | .ok _ => (odb.Do alimentEndpoint (goMapSet params "pib" pib) decode http).toCall

/-- Embedding of `GetLawyers`. -/
def OdbClient.GetLawyers {α : Type} (odb : OdbClient) (params : Smap)
    (decode : Json → Except String α) (http : Http) : CallResult α :=
  match checkApiKey odb with
  | .error e => { result := .error e, trace := [] }
  | .ok _ => (odb.Do lawyersEndpoint params decode http).toCall

/-- Embedding of `GetLawyerById` (no emptiness check on `id`). -/
def OdbClient.GetLawyerById {α : Type} (odb : OdbClient) (id : String)
    (decode : Json → Except String α) (http : Http) : CallResult α :=
  match checkApiKey odb with
  | .error e => { result := .error e, trace := [] }
  | .ok _ => (odb.Do (sprintf lawyersByIdEndpoint [id]) [] decode http).toCall

/-- Embedding of `GetCorruptOfficialsById` (no emptiness check on `id`). -/
def OdbClient.GetCorruptOfficialsById {α : Type} (odb : OdbClient) (id : String)
    (decode : Json → Except String α) (http : Http) : CallResult α :=
  match checkApiKey odb with
  | .error e => { result := .error e, trace := [] }
  | .ok _ => (odb.Do (sprintf corruptOfficialsByIdEndpoint [id]) [] decode http).toCall

/-- Embedding of `GetCorruptOfficials` (writes `params["pib"] = pib`). -/
def OdbClient.GetCorruptOfficials {α : Type} (odb : OdbClient) (pib : String) (params : Smap)
    (decode : Json → Except String α) (http : Http) : CallResult α :=
  match checkApiKey odb with
  | .error e => { result := .error e, trace := [] }
  | .ok _ => (odb.Do corruptOfficialsEndpoint (goMapSet params "pib" pib) decode http).toCall

/-- Embedding of `GetPassport`. -/
def OdbClient.GetPassport {α : Type} (odb : OdbClient) (number : String)
    (decode : Json → Except String α) (http : Http) : CallResult α :=
  match checkApiKey odb with
  | .error e => { result := .error e, trace := [] }
  | .ok _ => (odb.Do passportEndpoint [("number", number)] decode http).toCall

/-- Embedding of `GetWanted` (writes `params["pib"] = pib`). -/
def OdbClient.GetWanted {α : Type} (odb : OdbClient) (pib : String) (params : Smap)
    (decode : Json → Except String α) (http : Http) : CallResult α :=
  match checkApiKey odb with
  | .error e => { result := .error e, trace := [] }
  | .ok _ => (odb.Do wantedEndpoint (goMapSet params "pib" pib) decode http).toCall

/-- Embedding of `GetFullPenaltyByNumber` (no emptiness check on `number`). -/
def OdbClient.GetFullPenaltyByNumber {α : Type} (odb : OdbClient) (number : String)
    (params : Smap) (decode : Json → Except String α) (http : Http) : CallResult α :=
  match checkApiKey odb with
  | .error e => { result := .error e, trace := [] }
  | .ok _ => (odb.Do (sprintf fullPenaltyByNumberEndpoint [number]) params decode http).toCall

/-- Embedding of `GetFullPenaltyDocByNumber` (no emptiness check on
`number`). -/
def OdbClient.GetFullPenaltyDocByNumber {α : Type} (odb : OdbClient) (number : String)
    (secret : String) (decode : Json → Except String α) (http : Http) : CallResult α :=
  match checkApiKey odb with
  | .error e => { result := .error e, trace := [] }
  | .ok _ =>
    (odb.Do (sprintf fullPenaltyDocByNumberEndpoint [number])
      [("secret", secret)] decode http).toCall

/-- Embedding of `GetFullPenalty`. -/
def OdbClient.GetFullPenalty {α : Type} (odb : OdbClient) (params : Smap)
    (decode : Json → Except String α) (http : Http) : CallResult α :=
  match checkApiKey odb with
  | .error e => { result := .error e, trace := [] }
  | .ok _ => (odb.Do fullPenaltyEndpoint params decode http).toCall

/-- Embedding of `GetPerformer`. -/
def OdbClient.GetPerformer {α : Type} (odb : OdbClient) (params : Smap)
    (decode : Json → Except String α) (http : Http) : CallResult α :=
  match checkApiKey odb with
  | .error e => { result := .error e, trace := [] }
  | .ok _ => (odb.Do performerEndpoint params decode http).toCall

/-- Embedding of `GetPenaltiesByCode` (no emptiness check on `code`). -/
def OdbClient.GetPenaltiesByCode {α : Type} (odb : OdbClient) (code : String) (params : Smap)
    (decode : Json → Except String α) (http : Http) : CallResult α :=
  match checkApiKey odb with
  | .error e => { result := .error e, trace := [] }
  | .ok _ => (odb.Do (sprintf penaltiesByCodeEndpoint [code]) params decode http).toCall

/-- Embedding of `GetPenaltyByNumber` (no emptiness check on `number`). -/
def OdbClient.GetPenaltyByNumber {α : Type} (odb : OdbClient) (number : String)
    (decode : Json → Except String α) (http : Http) : CallResult α :=
  match checkApiKey odb with
  | .error e => { result := .error e, trace := [] }
  | .ok _ => (odb.Do (sprintf penaltyByNumberEndpoint [number]) [] decode http).toCall

/-- Embedding of `GetPenalties` (writes the three name parts into the
caller-supplied params map, in source order). -/
def OdbClient.GetPenalties {α : Type} (odb : OdbClient) (firstName : String)
    (lastName : String) (birthDate : String) (params : Smap)
    (decode : Json → Except String α) (http : Http) : CallResult α :=
  match checkApiKey odb with
  | .error e => { result := .error e, trace := [] }
  | .ok _ =>
    (odb.Do penaltiesEndpoint
      (goMapSet (goMapSet (goMapSet params "first_name" firstName) "last_name" lastName)
        "birth_date" birthDate) decode http).toCall

/-- Embedding of `GetKoatuuRegions` (no checks at all in the source). -/
def OdbClient.GetKoatuuRegions {α : Type} (odb : OdbClient)
    (decode : Json → Except String α) (http : Http) : CallResult α :=
  (odb.Do koatuuRegionsEndpoint [] decode http).toCall

/-- Embedding of `GetKoatuuRegionsByCode` (no checks at all in the source). -/
def OdbClient.GetKoatuuRegionsByCode {α : Type} (odb : OdbClient) (code : String)
    (decode : Json → Except String α) (http : Http) : CallResult α :=
  (odb.Do (sprintf koatuuRegionsByCodeEndpoint [code]) [] decode http).toCall

/-- Embedding of `GetRealty` (writes `params["code"] = code`). -/
def OdbClient.GetRealty {α : Type} (odb : OdbClient) (code : String) (params : Smap)
    (decode : Json → Except String α) (http : Http) : CallResult α :=
  match checkApiKey odb with
  | .error e => { result := .error e, trace := [] }
  | .ok _ => (odb.Do realtyEndpoint (goMapSet params "code" code) decode http).toCall

/-- Embedding of `GetRealtyById` (no emptiness check on either
identifier). -/
def OdbClient.GetRealtyById {α : Type} (odb : OdbClient) (reportResultId : String)
    (id : String) (decode : Json → Except String α) (http : Http) : CallResult α :=
  match checkApiKey odb with
  | .error e => { result := .error e, trace := [] }
  | .ok _ => (odb.Do (sprintf realtyByIdEndpoint [reportResultId, id]) [] decode http).toCall

/-- Embedding of `GetRealtyResult`. -/
def OdbClient.GetRealtyResult {α : Type} (odb : OdbClient) (resultId : String)
    (decode : Json → Except String α) (http : Http) : CallResult α :=
  match checkApiKey odb with
  | .error e => { result := .error e, trace := [] }
  | .ok _ => (odb.Do realtyResultEndpoint [("resultId", resultId)] decode http).toCall

/-- Embedding of `GetRealtyReportByNumber` (no emptiness check on
`number`). -/
def OdbClient.GetRealtyReportByNumber {α : Type} (odb : OdbClient) (number : String)
    (decode : Json → Except String α) (http : Http) : CallResult α :=
  match checkApiKey odb with
  | .error e => { result := .error e, trace := [] }
  | .ok _ => (odb.Do (sprintf realtyReportByNumberEndpoint [number]) [] decode http).toCall

/-- Embedding of `GetTimeline`. -/
def OdbClient.GetTimeline {α : Type} (odb : OdbClient) (params : Smap)
    (decode : Json → Except String α) (http : Http) : CallResult α :=
  match checkApiKey odb with
  | .error e => { result := .error e, trace := [] }
  | .ok _ => (odb.Do timelineEndpoint params decode http).toCall

/-- ASCII lowering of one character, for `encoding/json`'s case-insensitive
field-name matching. -/
def lowerChar (c : Char) : Char :=
  if 65 ≤ c.toNat ∧ c.toNat ≤ 90 then Char.ofNat (c.toNat + 32) else c

/-- ASCII-case-folded characters of a JSON object key. -/
def lowerKey (s : String) : List Char := s.data.map lowerChar

/-- Element shape of `GovernmentCompany.Data.Items` (anonymous in the Go
source: `struct { Code string }` with tag `code`). -/
structure GovernmentCompanyItem where
  Code : String
deriving DecidableEq

/-- Shape of `GovernmentCompany.Data` (anonymous in the Go source:
`struct { Count int; Items [...] }` with tags `count` and `items`). -/
structure GovernmentCompanyData where
  Count : Int
  Items : List GovernmentCompanyItem
deriving DecidableEq

/-- Embedding of the `GovernmentCompany` response struct. -/
structure GovernmentCompany where
  Status : String
  Data : GovernmentCompanyData
deriving DecidableEq

/-- Decoding of a JSON value into a `string` field holding `cur`:
a string replaces it, `null` keeps it, anything else is a type error. -/
def decodeStringField (cur : String) : Json → Except String String
  | .str s => .ok s
  | .null => .ok cur
  | _ => .error "json: cannot unmarshal value into Go value of type string"

/-- Decoding of a JSON value into an `int` field holding `cur`. -/
def decodeIntField (cur : Int) : Json → Except String Int
  | .num n => .ok n
  | .null => .ok cur
  | _ => .error "json: cannot unmarshal value into Go value of type int"

/-- One step of the field loop for an item object: a key folding to `code`
decodes into `Code`, every other key is skipped. -/
def itemFieldStep (acc : GovernmentCompanyItem) (field : String × Json) :
    Except String GovernmentCompanyItem :=
  if lowerKey field.1 = "code".data then
    (decodeStringField acc.Code field.2).map fun s => { acc with Code := s }
  else .ok acc

/-- Decoding of a JSON value into an item struct holding `acc`. -/
def decodeItem (acc : GovernmentCompanyItem) : Json → Except String GovernmentCompanyItem
  | .obj fields => fields.foldlM itemFieldStep acc
  | .null => .ok acc
  | _ => .error "json: cannot unmarshal value into Go value of type struct"

/-- Decoding of a JSON value into the `Items` slice: an array decodes each
element into a fresh zero-valued item (the slice in `Do` is freshly
allocated), `null` keeps the current slice. -/
def decodeItems (cur : List GovernmentCompanyItem) :
    Json → Except String (List GovernmentCompanyItem)
  | .arr xs => xs.mapM (decodeItem { Code := "" })
  | .null => .ok cur
  | _ => .error "json: cannot unmarshal value into Go value of type slice"

/-- One step of the field loop for the `data` object: keys folding to `count`
or `items` decode into the matching field, every other key is skipped. -/
def dataFieldStep (acc : GovernmentCompanyData) (field : String × Json) :
    Except String GovernmentCompanyData :=
  if lowerKey field.1 = "count".data then
    (decodeIntField acc.Count field.2).map fun n => { acc with Count := n }
  else if lowerKey field.1 = "items".data then
    (decodeItems acc.Items field.2).map fun xs => { acc with Items := xs }
  else .ok acc

/-- Decoding of a JSON value into the `Data` struct holding `acc`. -/
def decodeData (acc : GovernmentCompanyData) : Json → Except String GovernmentCompanyData
  | .obj fields => fields.foldlM dataFieldStep acc
  | .null => .ok acc
  | _ => .error "json: cannot unmarshal value into Go value of type struct"

/-- One step of the field loop for the top-level object: keys folding to
`status` or `data` decode into the matching field, every other key is
skipped (unknown fields are ignored). -/
def gcFieldStep (acc : GovernmentCompany) (field : String × Json) :
    Except String GovernmentCompany :=
  if lowerKey field.1 = "status".data then
    (decodeStringField acc.Status field.2).map fun s => { acc with Status := s }
  else if lowerKey field.1 = "data".data then
    (decodeData acc.Data field.2).map fun d => { acc with Data := d }
  else .ok acc

/-- The zero value of `GovernmentCompany` (what `Do` freshly allocates
before `json.Unmarshal` fills it). -/
def gcZero : GovernmentCompany :=
  { Status := "", Data := { Count := 0, Items := [] } }

/-- Embedding of `json.Unmarshal(body, &response)` for the
`GovernmentCompany` shape: the body must be a JSON object (or `null`, which
leaves the fresh value untouched); its keys are processed in order, matched
case-insensitively against the field tags, unknown keys ignored, and fields
missing from the payload keep their zero values. -/
def decodeGovernmentCompany : Json → Except String GovernmentCompany
  | .obj fields => fields.foldlM gcFieldStep gcZero
  | .null => .ok gcZero
  | _ => .error "json: cannot unmarshal value into Go value of type struct"

/-- The concrete scenario body
`{"status":"ok","data":{"count":1,"items":[{"code":"31325005"}]}}`. -/
def gcScenarioBody : Json :=
  .obj [("status", .str "ok"),
        ("data", .obj [("count", .num 1),
                       ("items", .arr [.obj [("code", .str "31325005")]])])]

/-- Sorting the query parameters permutes them. -/
theorem sortByKey_perm (l : Smap) : List.Perm (sortByKey l) l :=
  List.perm_insertionSort keyLe l

/-- A key absent from a map filters to nothing. -/
theorem filter_key_nil (m : Smap) (k : String) (h : k ∉ m.map Prod.fst) :
    List.filter (fun kv => kv.1 == k) m = [] := by
  induction m with
  | nil => rfl
  | cons hd tl ih =>
    simp only [List.map_cons, List.mem_cons] at h
    push_neg at h
    have hne : ¬ hd.1 = k := fun hh => h.1 hh.symm
    simp only [List.filter_cons]
    rw [if_neg (by simpa using hne)]
    exact ih h.2

/-- Go map assignment leaves exactly one binding of the assigned key (keys of
a Go map are unique). -/
theorem filter_goMapSet (m : Smap) (k v : String)
    (hnd : (m.map Prod.fst).Nodup) :
    List.filter (fun kv => kv.1 == k) (goMapSet m k v) = [(k, v)] := by
  induction m with
  | nil => simp [goMapSet]
  | cons hd tl ih =>
    obtain ⟨k', v'⟩ := hd
    simp only [List.map_cons, List.nodup_cons] at hnd
    rw [goMapSet]
    by_cases hk : k' = k
    · rw [if_pos hk]
      simp only [List.filter_cons, beq_self_eq_true, if_pos]
      rw [filter_key_nil tl k (by rw [← hk]; exact hnd.1)]
    · rw [if_neg hk]
      simp only [List.filter_cons]
      rw [if_neg (by simpa using hk)]
      exact ih hnd.2

/-- Among the sorted query parameters, an assigned key appears exactly
once, with the assigned value. -/
theorem filter_sortByKey_goMapSet (m : Smap) (k v : String)
    (hnd : (m.map Prod.fst).Nodup) :
    List.filter (fun kv => kv.1 == k) (sortByKey (goMapSet m k v)) = [(k, v)] := by
  have hperm := (sortByKey_perm (goMapSet m k v)).filter (fun kv => kv.1 == k)
  rw [filter_goMapSet m k v hnd] at hperm
  exact List.perm_singleton.mp hperm

/-- Looking up the key just assigned gives the assigned value. -/
theorem mapGet_goMapSet_self (m : Smap) (k v : String) :
    mapGet (goMapSet m k v) k = some v := by
  induction m with
  | nil => simp [goMapSet, mapGet]
  | cons hd tl ih =>
    obtain ⟨k', v'⟩ := hd
    rw [goMapSet]
    by_cases hk : k' = k
    · rw [if_pos hk, mapGet, if_pos rfl]
    · rw [if_neg hk, mapGet, if_neg hk]
      exact ih

/-- Assignment does not disturb the other keys. -/
theorem mapGet_goMapSet_other (m : Smap) (k v k' : String) (h : k' ≠ k) :
    mapGet (goMapSet m k v) k' = mapGet m k' := by
  induction m with
  | nil =>
    rw [goMapSet, mapGet, mapGet, if_neg (fun hh => h hh.symm), mapGet]
  | cons hd tl ih =>
    obtain ⟨k0, v0⟩ := hd
    rw [goMapSet]
    by_cases hk : k0 = k
    · subst hk
      rw [if_pos rfl, mapGet, mapGet, if_neg (fun hh => h hh.symm),
        if_neg (fun hh => h hh.symm)]
    · rw [if_neg hk, mapGet, mapGet]
      by_cases h0 : k0 = k'
      · rw [if_pos h0, if_pos h0]
      · rw [if_neg h0, if_neg h0]
        exact ih

/-- A fold step that returns its state unchanged can be dropped from the
middle of an `Except` fold. -/
theorem foldlM_skip_middle {β ε γ : Type} (f : β → γ → Except ε β) (x : γ)
    (hx : ∀ b, f b x = .ok b) (l₁ l₂ : List γ) (b : β) :
    (l₁ ++ x :: l₂).foldlM f b = (l₁ ++ l₂).foldlM f b := by
  induction l₁ generalizing b with
  | nil =>
    rw [List.nil_append, List.nil_append, List.foldlM_cons, hx b]
    rfl
  | cons hd tl ih =>
    rw [List.cons_append, List.cons_append, List.foldlM_cons, List.foldlM_cons]
    cases f b hd with
    | error e => rfl
    | ok b' => exact ih b'

/-- A format string with more `%s` slots than arguments renders a
`%!s(MISSING)` marker among its output pieces. -/
theorem sprintfChunks_missing (t : List Char) (args : List String) :
    args.length < countSlots t → "%!s(MISSING)" ∈ sprintfChunks t args := by
  induction t, args using sprintfChunks.induct with
  | case1 => intro h; simp [countSlots] at h
  | case2 a args => intro h; simp [countSlots] at h
  | case3 c => intro h; simp [countSlots] at h
  | case4 c a args => intro h; simp [countSlots] at h
  | case5 c1 c2 rest hps ih =>
    intro _
    rw [sprintfChunks, if_pos hps]
    exact List.mem_cons_self _ _
  | case6 c1 c2 rest hps ih =>
    intro h
    rw [countSlots, if_neg hps] at h
    rw [sprintfChunks, if_neg hps]
    exact List.mem_cons_of_mem _ (ih h)
  | case7 c1 c2 rest a args' hps ih =>
    intro h
    rw [countSlots, if_pos hps] at h
    rw [sprintfChunks, if_pos hps]
    simp only [List.length_cons] at h
    exact List.mem_cons_of_mem _ (ih (by omega))
  | case8 c1 c2 rest a args' hps ih =>
    intro h
    rw [countSlots, if_neg hps] at h
    rw [sprintfChunks, if_neg hps]
    exact List.mem_cons_of_mem _ (ih h)

/-- A format string with fewer `%s` slots than arguments renders an
`%!(EXTRA ...)` marker (over the unconsumed arguments) among its output
pieces. -/
theorem sprintfChunks_extra (t : List Char) (args : List String) :
    countSlots t < args.length →
    ∃ rest : List String, rest ≠ [] ∧ extraChunk rest ∈ sprintfChunks t args := by
  induction t, args using sprintfChunks.induct with
  | case1 => intro h; simp [countSlots] at h
  | case2 a args =>
    intro _
    exact ⟨a :: args, by simp, by rw [sprintfChunks]; exact List.mem_singleton.mpr rfl⟩
  | case3 c => intro h; simp [countSlots] at h
  | case4 c a args =>
    intro _
    refine ⟨a :: args, by simp, ?_⟩
    rw [sprintfChunks]
    exact List.mem_cons_of_mem _ (List.mem_singleton.mpr rfl)
  | case5 c1 c2 rest hps ih =>
    intro h
    rw [countSlots, if_pos hps] at h
    simp at h
  | case6 c1 c2 rest hps ih =>
    intro h
    rw [countSlots, if_neg hps] at h
    obtain ⟨r, hr, hm⟩ := ih h
    exact ⟨r, hr, by rw [sprintfChunks, if_neg hps]; exact List.mem_cons_of_mem _ hm⟩
  | case7 c1 c2 rest a args' hps ih =>
    intro h
    rw [countSlots, if_pos hps] at h
    simp only [List.length_cons] at h
    obtain ⟨r, hr, hm⟩ := ih (by omega)
    exact ⟨r, hr, by rw [sprintfChunks, if_pos hps]; exact List.mem_cons_of_mem _ hm⟩
  | case8 c1 c2 rest a args' hps ih =>
    intro h
    rw [countSlots, if_neg hps] at h
    obtain ⟨r, hr, hm⟩ := ih h
    exact ⟨r, hr, by rw [sprintfChunks, if_neg hps]; exact List.mem_cons_of_mem _ hm⟩

/-- Option application never touches the transport handle. -/
theorem applyList_client (opts : List OdbOption) (s : Settings) :
    (opts.foldl (fun s o => o.Apply s) s).Client = s.Client := by
  induction opts generalizing s with
  | nil => rfl
  | cons o rest ih =>
    rw [List.foldl_cons, ih]
    cases o with
    | withApiKey w => rfl

/-- Unfolding of `Do` through `requestUrl`. -/
theorem Do_unfold {α : Type} (odb : OdbClient) (endpoint : String) (params : Smap)
    (decode : Json → Except String α) (http : Http) :
    odb.Do endpoint params decode http =
      match http (requestUrl odb endpoint params) with
      | .failure msg =>
        { result := .error (.network msg), finalParams := injectApiKey odb params,
          trace := [requestUrl odb endpoint params] }
      | .response status body =>
        if status ≠ 200 then
          { result := .error (.httpStatus status), finalParams := injectApiKey odb params,
            trace := [requestUrl odb endpoint params] }
        else
          match decode body with
          | .error msg =>
            { result := .error (.decode msg), finalParams := injectApiKey odb params,
              trace := [requestUrl odb endpoint params] }
          | .ok v =>
            { result := .ok v, finalParams := injectApiKey odb params,
              trace := [requestUrl odb endpoint params] } := rfl

/-- Every call to `Do` leaves the params map in the state produced by the
credential-injection step, whatever the transport outcome. -/
theorem Do_finalParams {α : Type} (odb : OdbClient) (endpoint : String) (params : Smap)
    (decode : Json → Except String α) (http : Http) :
    (odb.Do endpoint params decode http).finalParams = injectApiKey odb params := by
  rw [Do_unfold]
  cases http (requestUrl odb endpoint params) with
  | failure m => rfl
  | response st b =>
    dsimp only
    by_cases hst : st ≠ 200
    · rw [if_pos hst]
    · rw [if_neg hst]
      cases decode b <;> rfl

/-- Every call to `Do` performs exactly one HTTP request, to `requestUrl`. -/
theorem Do_trace {α : Type} (odb : OdbClient) (endpoint : String) (params : Smap)
    (decode : Json → Except String α) (http : Http) :
    (odb.Do endpoint params decode http).trace = [requestUrl odb endpoint params] := by
  rw [Do_unfold]
  cases http (requestUrl odb endpoint params) with
  | failure m => rfl
  | response st b =>
    dsimp only
    by_cases hst : st ≠ 200
    · rw [if_pos hst]
    · rw [if_neg hst]
      cases decode b <;> rfl

/-- C7: building a configuration applies each option in order to a fresh
zero-valued `Settings` (later options override earlier ones on the same
field, last write wins), never returns an error, and the empty option
sequence yields the empty credential. -/
theorem applySettings_builder_spec :
    (∀ opts : List OdbOption, ∃ s, ApplySettings opts = Except.ok s) ∧
    ApplySettings [] = Except.ok { ApiKey := "", Client := none } ∧
    (∀ opts₁ opts₂ : List OdbOption,
      ApplySettings (opts₁ ++ opts₂) =
        Except.ok (opts₂.foldl (fun s o => o.Apply s)
          (opts₁.foldl (fun s o => o.Apply s) { ApiKey := "", Client := none }))) ∧
    (∀ (opts : List OdbOption) (k : String),
      ApplySettings (opts ++ [WithApiKey k]) =
        Except.ok { ApiKey := k, Client := none }) ∧
    (∀ opts : List OdbOption, ∃ c, NewOdbClient opts = Except.ok c) := by
  refine ⟨fun opts => ⟨_, rfl⟩, rfl, ?_, ?_, fun opts => ⟨_, rfl⟩⟩
  · intro opts₁ opts₂
    rw [ApplySettings, List.foldl_append]
  · intro opts k
    rw [ApplySettings, List.foldl_append, List.foldl_cons, List.foldl_nil]
    have hc := applyList_client opts { ApiKey := "", Client := none }
    cases hfold : opts.foldl (fun s o => o.Apply s) { ApiKey := "", Client := none } with
    | mk a c =>
      rw [hfold] at hc
      simp only at hc
      rw [hc]
      rfl

/-- C8: a parameter bound to the empty string is still emitted by the query
encoder: its `k=` component is among the components of the encoded query
string (the encoder never prunes empty-valued parameters). -/
theorem encoder_keeps_empty_valued (params : Smap) (k : String)
    (h : (k, "") ∈ params) :
    queryEscape "" = "" ∧
    encodeQuery params = String.intercalate "&" (queryComponents params) ∧
    (queryEscape k ++ "=" ++ queryEscape "") ∈ queryComponents params := by
  refine ⟨rfl, rfl, ?_⟩
  have hmem : (k, "") ∈ sortByKey params := (sortByKey_perm params).mem_iff.mpr h
  exact List.mem_map_of_mem _ hmem

/-- C8 witness at a concrete map. -/
theorem encoder_keeps_empty_valued_witness :
    (queryEscape "code" ++ "=" ++ queryEscape "") ∈ queryComponents [("code", "")] :=
  (encoder_keeps_empty_valued [("code", "")] "code" (by decide)).2.2

/-- C1: with a non-empty configured credential, every call to `Do` encodes a
request whose query parameters carry `apiKey` exactly once, bound to the
configured credential — even when the caller-supplied map already binds
`apiKey` (the configured credential overwrites it).  The map written by `Do`
is `goMapSet params "apiKey" k`; the encoded URL is built from exactly that
map, and among its (sorted, one-component-per-entry) query parameters the
`apiKey` filter leaves the single pair `("apiKey", k)`.  The `urlSafe`
hypothesis delimits the endpoints on which the embedding of
`url.Parse`/`String()` is exact. -/
theorem do_sends_apiKey_exactly_once (k : String) (cl : Option Nat) (endpoint : String)
    (params : Smap) {α : Type} (decode : Json → Except String α) (http : Http)
    (hk : k ≠ "") (hnd : (params.map Prod.fst).Nodup)
    (_hsafe : urlSafe endpoint = true) :
    (OdbClient.Do ⟨⟨k, cl⟩⟩ endpoint params decode http).finalParams =
      goMapSet params "apiKey" k ∧
    List.filter (fun kv => kv.1 == "apiKey") (sortByKey (goMapSet params "apiKey" k)) =
      [("apiKey", k)] ∧
    mapGet (goMapSet params "apiKey" k) "apiKey" = some k ∧
    (OdbClient.Do ⟨⟨k, cl⟩⟩ endpoint params decode http).trace =
      [buildQueryParams endpoint (goMapSet params "apiKey" k)] := by
  have hinj : injectApiKey ⟨⟨k, cl⟩⟩ params = goMapSet params "apiKey" k := by
    rw [injectApiKey, if_neg hk]
  refine ⟨?_, ?_, ?_, ?_⟩
  · rw [Do_finalParams, hinj]
  · exact filter_sortByKey_goMapSet params "apiKey" k hnd
  · exact mapGet_goMapSet_self params "apiKey" k
  · rw [Do_trace, requestUrl, hinj]

/-- C1 witness: a caller-supplied `apiKey` binding is overridden and the
encoded query carries the configured credential exactly once. -/
theorem do_sends_apiKey_exactly_once_witness :
    List.filter (fun kv => kv.1 == "apiKey")
      (sortByKey (goMapSet [("apiKey", "EVIL"), ("code", "31325005")] "apiKey" "K")) =
      [("apiKey", "K")] ∧
    (OdbClient.Do ⟨⟨"K", none⟩⟩ governmentCompaniesEndpoint
        [("apiKey", "EVIL"), ("code", "31325005")] (fun _ => Except.ok ())
        (fun _ => .response 200 .null)).trace =
      [buildQueryParams governmentCompaniesEndpoint
        (goMapSet [("apiKey", "EVIL"), ("code", "31325005")] "apiKey" "K")] :=
  ⟨(do_sends_apiKey_exactly_once "K" none governmentCompaniesEndpoint
      [("apiKey", "EVIL"), ("code", "31325005")] (fun _ => Except.ok ())
      (fun _ => .response 200 .null) (by decide) (by decide) (by decide)).2.1,
   (do_sends_apiKey_exactly_once "K" none governmentCompaniesEndpoint
      [("apiKey", "EVIL"), ("code", "31325005")] (fun _ => Except.ok ())
      (fun _ => .response 200 .null) (by decide) (by decide) (by decide)).2.2.2⟩

/-- C9: with a non-empty configured credential, `Do` writes
`params["apiKey"] = credential` into the caller-supplied map before doing
anything else, so after the call (whatever the transport outcome) the shared
map binds `apiKey` to the credential — overwriting any prior binding — and
every other key keeps its previous value. -/
theorem do_mutates_caller_params (odb : OdbClient) (endpoint : String) (params : Smap)
    {α : Type} (decode : Json → Except String α) (http : Http)
    (hk : odb.Settings.ApiKey ≠ "") :
    (odb.Do endpoint params decode http).finalParams =
      goMapSet params "apiKey" odb.Settings.ApiKey ∧
    mapGet (odb.Do endpoint params decode http).finalParams "apiKey" =
      some odb.Settings.ApiKey ∧
    (∀ key : String, key ≠ "apiKey" →
      mapGet (odb.Do endpoint params decode http).finalParams key = mapGet params key) := by
  have hfp : (odb.Do endpoint params decode http).finalParams =
      goMapSet params "apiKey" odb.Settings.ApiKey := by
    rw [Do_finalParams, injectApiKey, if_neg hk]
  refine ⟨hfp, ?_, ?_⟩
  · rw [hfp]
    exact mapGet_goMapSet_self params "apiKey" odb.Settings.ApiKey
  · intro key hkey
    rw [hfp]
    exact mapGet_goMapSet_other params "apiKey" odb.Settings.ApiKey key hkey

/-- C9 witness: the caller's own `apiKey` binding is visibly overwritten in
the shared map while the other keys survive. -/
theorem do_mutates_caller_params_witness :
    mapGet (OdbClient.Do ⟨⟨"K", none⟩⟩ governmentCompaniesEndpoint
        [("apiKey", "OLD"), ("code", "1")] (fun _ => Except.ok ())
        (fun _ => .response 200 .null)).finalParams "apiKey" = some "K" ∧
    mapGet (OdbClient.Do ⟨⟨"K", none⟩⟩ governmentCompaniesEndpoint
        [("apiKey", "OLD"), ("code", "1")] (fun _ => Except.ok ())
        (fun _ => .response 200 .null)).finalParams "code" = some "1" :=
  ⟨(do_mutates_caller_params ⟨⟨"K", none⟩⟩ governmentCompaniesEndpoint
      [("apiKey", "OLD"), ("code", "1")] (fun _ => Except.ok ())
      (fun _ => .response 200 .null) (by decide)).2.1,
   ((do_mutates_caller_params ⟨⟨"K", none⟩⟩ governmentCompaniesEndpoint
      [("apiKey", "OLD"), ("code", "1")] (fun _ => Except.ok ())
      (fun _ => .response 200 .null) (by decide)).2.2 "code" (by decide)).trans (by decide)⟩

/-- C5: when the transport answers with any non-200 status, `Do` returns the
status error built from the code alone — for every response body and every
decoder, so the body is discarded and the decoder is never consulted — and
the Go error text is `http.StatusText(code)`.  The `urlSafe` hypothesis
delimits the endpoints on which the embedding is exact. -/
theorem do_non200_discards_body (odb : OdbClient) (endpoint : String) (params : Smap)
    {α : Type} (decode : Json → Except String α) (http : Http) (status : Nat) (body : Json)
    (_hsafe : urlSafe endpoint = true)
    (hresp : http (requestUrl odb endpoint params) = .response status body)
    (hst : status ≠ 200) :
    odb.Do endpoint params decode http =
      { result := .error (.httpStatus status),
        finalParams := injectApiKey odb params,
        trace := [requestUrl odb endpoint params] } ∧
    (OdbError.httpStatus status).goMessage = statusText status := by
  refine ⟨?_, rfl⟩
  rw [Do_unfold, hresp]
  dsimp only
  rw [if_pos hst]

/-- C5 witness: a 404 with a structured error payload in the body still
yields exactly the status error (`Not Found`), the body never decoded. -/
theorem do_non200_discards_body_witness :
    OdbClient.Do ⟨⟨"K", none⟩⟩ governmentCompaniesEndpoint [("code", "1")]
        (fun _ => Except.ok ())
        (fun _ => .response 404 (.obj [("status", .str "error")])) =
      { result := .error (.httpStatus 404),
        finalParams := injectApiKey ⟨⟨"K", none⟩⟩ [("code", "1")],
        trace := [requestUrl ⟨⟨"K", none⟩⟩ governmentCompaniesEndpoint [("code", "1")]] } ∧
    (OdbError.httpStatus 404).goMessage = statusText 404 :=
  do_non200_discards_body ⟨⟨"K", none⟩⟩ governmentCompaniesEndpoint [("code", "1")]
    (fun _ => Except.ok ()) (fun _ => .response 404 (.obj [("status", .str "error")]))
    404 (.obj [("status", .str "error")]) (by decide) rfl (by decide)

/-- C6: decoding into `GovernmentCompany` ignores unknown object keys (at the
top level and inside `data`), fields missing from the payload keep the zero
value of their type, and the scenario body decodes to the expected value —
both through the decoder alone and through the full
`GetGovernmentCompany` pipeline against a mocked transport. -/
theorem governmentCompany_decode_spec :
    (∀ (pre post : List (String × Json)) (k : String) (j : Json),
      ¬ lowerKey k = "status".data → ¬ lowerKey k = "data".data →
      decodeGovernmentCompany (.obj (pre ++ (k, j) :: post)) =
        decodeGovernmentCompany (.obj (pre ++ post))) ∧
    (∀ (pre post : List (String × Json)) (k : String) (j : Json)
      (acc : GovernmentCompanyData),
      ¬ lowerKey k = "count".data → ¬ lowerKey k = "items".data →
      decodeData acc (.obj (pre ++ (k, j) :: post)) =
        decodeData acc (.obj (pre ++ post))) ∧
    decodeGovernmentCompany (.obj []) = .ok gcZero ∧
    decodeGovernmentCompany (.obj [("status", .str "ok")]) =
      .ok { Status := "ok", Data := { Count := 0, Items := [] } } ∧
    decodeGovernmentCompany gcScenarioBody =
      .ok { Status := "ok", Data := { Count := 1, Items := [{ Code := "31325005" }] } } ∧
    (OdbClient.GetGovernmentCompany ⟨⟨"K", none⟩⟩ "31325005" decodeGovernmentCompany
        (fun _ => .response 200 gcScenarioBody)).result =
      .ok { Status := "ok", Data := { Count := 1, Items := [{ Code := "31325005" }] } } := by
  refine ⟨?_, ?_, by decide, by decide, by decide, by decide⟩
  · intro pre post k j h1 h2
    rw [decodeGovernmentCompany, decodeGovernmentCompany]
    exact foldlM_skip_middle gcFieldStep (k, j)
      (fun b => by rw [gcFieldStep]; dsimp only; rw [if_neg h1, if_neg h2]) pre post gcZero
  · intro pre post k j acc h1 h2
    rw [decodeData, decodeData]
    exact foldlM_skip_middle dataFieldStep (k, j)
      (fun b => by rw [dataFieldStep]; dsimp only; rw [if_neg h1, if_neg h2]) pre post acc

/-- C6 witness: an unknown key (here `"fop_hash"`) inserted into the
scenario object changes nothing. -/
theorem governmentCompany_decode_spec_witness :
    decodeGovernmentCompany
      (.obj [("status", .str "ok"), ("fop_hash", .str "x")]) =
    decodeGovernmentCompany (.obj [("status", .str "ok")]) :=
  governmentCompany_decode_spec.1 [("status", .str "ok")] [] "fop_hash" (.str "x")
    (by decide) (by decide)

/-- C4 counterexample: on an argument-count mismatch the resolver does not
fail — `fmt.Sprintf` cannot return an error — it produces an ordinary string
(here, for the catalog's dpa template with no argument, and with one surplus
argument). -/
theorem sprintf_mismatch_returns_string :
    sprintf dpaEndpoint [] = "https://opendatabot.com/api/v2/dpa/%!s(MISSING)" ∧
    sprintf dpaEndpoint ["1111111111", "extra"] =
      "https://opendatabot.com/api/v2/dpa/1111111111%!(EXTRA string=extra)" := by
  decide

/-- C4 (amended): on a slot/argument count mismatch the resolver still
returns a string, but one that explicitly flags the mismatch — a
`%!s(MISSING)` piece when slots outnumber arguments, a `%!(EXTRA ...)` piece
over the unconsumed arguments otherwise — so the result is never a silently
truncated or padded URL.  `slotsOnly` delimits the `%s`-only format strings
(all catalog templates) on which the embedding agrees with Go. -/
theorem resolve_mismatch_is_marked (t : String) (args : List String)
    (_hwf : slotsOnly t.data = true) (hne : countSlots t.data ≠ args.length) :
    sprintf t args = String.join (sprintfChunks t.data args) ∧
    ("%!s(MISSING)" ∈ sprintfChunks t.data args ∨
      ∃ rest : List String, rest ≠ [] ∧ extraChunk rest ∈ sprintfChunks t.data args) := by
  refine ⟨rfl, ?_⟩
  rcases Nat.lt_or_ge args.length (countSlots t.data) with hlt | hge
  · exact Or.inl (sprintfChunks_missing t.data args hlt)
  · exact Or.inr (sprintfChunks_extra t.data args (lt_of_le_of_ne hge hne))

/-- C4 witness: the dpa template with no argument renders the
`%!s(MISSING)` marker. -/
theorem resolve_mismatch_is_marked_witness :
    sprintf dpaEndpoint [] = String.join (sprintfChunks dpaEndpoint.data []) ∧
    ("%!s(MISSING)" ∈ sprintfChunks dpaEndpoint.data [] ∨
      ∃ rest : List String, rest ≠ [] ∧ extraChunk rest ∈ sprintfChunks dpaEndpoint.data []) :=
  resolve_mismatch_is_marked dpaEndpoint [] (by decide) (by decide)

/-- C3 counterexample: `GetRealtyById` (an endpoint method whose URL template
has two required identifier slots) called with empty identifiers returns no
`ValidationError` and issues an HTTP request — with the empty identifiers
substituted into the path — against a mocked transport. -/
theorem getRealtyById_empty_id_hits_network :
    OdbClient.GetRealtyById ⟨⟨"K", none⟩⟩ "" "" (fun _ => Except.ok ())
        (fun _ => .response 200 .null) =
      { result := .ok (),
        trace := ["https://opendatabot.com/api/v2/realty//?apiKey=K"] } := by
  decide

/-- C3 (amended): the ten methods that call `checkNotEmpty`
(`GetGovernmentCompany`, `GetDpa`, `GetCompany`, `GetChanges`,
`GetWagedebt`, `GetAuditById`, `GetRegistrationById`, `GetInspections`,
`GetInspectionById`, `GetPdf`) do return `ValidationError`
(`Id is not specified`) on an empty identifier with no HTTP request; but the
fifteen other identifier-slot methods perform no such check and, with a
configured credential, issue exactly one HTTP request with the empty
identifier substituted into the path. -/
theorem empty_identifier_check_coverage (k : String) (cl : Option Nat) {α : Type}
    (decode : Json → Except String α) (http : Http) (params : Smap)
    (code secret : String) (hk : k ≠ "") :
    OdbClient.GetGovernmentCompany ⟨⟨k, cl⟩⟩ "" decode http =
      { result := .error (.validation "Id is not specified"), trace := [] } ∧
    OdbClient.GetDpa ⟨⟨k, cl⟩⟩ "" decode http =
      { result := .error (.validation "Id is not specified"), trace := [] } ∧
    OdbClient.GetCompany ⟨⟨k, cl⟩⟩ "" decode http =
      { result := .error (.validation "Id is not specified"), trace := [] } ∧
    OdbClient.GetChanges ⟨⟨k, cl⟩⟩ "" params decode http =
      { result := .error (.validation "Id is not specified"), trace := [] } ∧
    OdbClient.GetWagedebt ⟨⟨k, cl⟩⟩ "" decode http =
      { result := .error (.validation "Id is not specified"), trace := [] } ∧
    OdbClient.GetAuditById ⟨⟨k, cl⟩⟩ "" decode http =
      { result := .error (.validation "Id is not specified"), trace := [] } ∧
    OdbClient.GetRegistrationById ⟨⟨k, cl⟩⟩ "" decode http =
      { result := .error (.validation "Id is not specified"), trace := [] } ∧
    OdbClient.GetInspections ⟨⟨k, cl⟩⟩ "" decode http =
      { result := .error (.validation "Id is not specified"), trace := [] } ∧
    OdbClient.GetInspectionById ⟨⟨k, cl⟩⟩ "" decode http =
      { result := .error (.validation "Id is not specified"), trace := [] } ∧
    OdbClient.GetPdf ⟨⟨k, cl⟩⟩ "" decode http =
      { result := .error (.validation "Id is not specified"), trace := [] } ∧
    (OdbClient.GetCourtById ⟨⟨k, cl⟩⟩ "" decode http).trace =
      [requestUrl ⟨⟨k, cl⟩⟩ (sprintf courtByIdEndpoint [""]) []] ∧
    (OdbClient.GetScheduleById ⟨⟨k, cl⟩⟩ "" decode http).trace =
      [requestUrl ⟨⟨k, cl⟩⟩ (sprintf scheduleByIdEndpoint [""]) []] ∧
    (OdbClient.GetCompanyCourtsByType ⟨⟨k, cl⟩⟩ "" code params decode http).trace =
      [requestUrl ⟨⟨k, cl⟩⟩ (sprintf companyCourtsByTypeEndpoint [""])
        (goMapSet params "code" code)] ∧
    (OdbClient.GetCourtCases ⟨⟨k, cl⟩⟩ "" params decode http).trace =
      [requestUrl ⟨⟨k, cl⟩⟩ (sprintf courtCasesEndpoint [""]) params] ∧
    (OdbClient.GetTransportById ⟨⟨k, cl⟩⟩ "" decode http).trace =
      [requestUrl ⟨⟨k, cl⟩⟩ (sprintf transportByIdEndpoint [""]) []] ∧
    (OdbClient.GetTransportLicensesById ⟨⟨k, cl⟩⟩ "" decode http).trace =
      [requestUrl ⟨⟨k, cl⟩⟩ (sprintf transportLicensesByIdEndpoint [""]) []] ∧
    (OdbClient.GetLawyerById ⟨⟨k, cl⟩⟩ "" decode http).trace =
      [requestUrl ⟨⟨k, cl⟩⟩ (sprintf lawyersByIdEndpoint [""]) []] ∧
    (OdbClient.GetCorruptOfficialsById ⟨⟨k, cl⟩⟩ "" decode http).trace =
      [requestUrl ⟨⟨k, cl⟩⟩ (sprintf corruptOfficialsByIdEndpoint [""]) []] ∧
    (OdbClient.GetFullPenaltyByNumber ⟨⟨k, cl⟩⟩ "" params decode http).trace =
      [requestUrl ⟨⟨k, cl⟩⟩ (sprintf fullPenaltyByNumberEndpoint [""]) params] ∧
    (OdbClient.GetFullPenaltyDocByNumber ⟨⟨k, cl⟩⟩ "" secret decode http).trace =
      [requestUrl ⟨⟨k, cl⟩⟩ (sprintf fullPenaltyDocByNumberEndpoint [""])
        [("secret", secret)]] ∧
    (OdbClient.GetPenaltiesByCode ⟨⟨k, cl⟩⟩ "" params decode http).trace =
      [requestUrl ⟨⟨k, cl⟩⟩ (sprintf penaltiesByCodeEndpoint [""]) params] ∧
    (OdbClient.GetPenaltyByNumber ⟨⟨k, cl⟩⟩ "" decode http).trace =
      [requestUrl ⟨⟨k, cl⟩⟩ (sprintf penaltyByNumberEndpoint [""]) []] ∧
    (OdbClient.GetKoatuuRegionsByCode ⟨⟨k, cl⟩⟩ "" decode http).trace =
      [requestUrl ⟨⟨k, cl⟩⟩ (sprintf koatuuRegionsByCodeEndpoint [""]) []] ∧
    (OdbClient.GetRealtyById ⟨⟨k, cl⟩⟩ "" "" decode http).trace =
      [requestUrl ⟨⟨k, cl⟩⟩ (sprintf realtyByIdEndpoint ["", ""]) []] ∧
    (OdbClient.GetRealtyReportByNumber ⟨⟨k, cl⟩⟩ "" decode http).trace =
      [requestUrl ⟨⟨k, cl⟩⟩ (sprintf realtyReportByNumberEndpoint [""]) []] := by
  refine ⟨rfl, rfl, rfl, rfl, rfl, rfl, rfl, rfl, rfl, rfl,
    ?_, ?_, ?_, ?_, ?_, ?_, ?_, ?_, ?_, ?_, ?_, ?_, ?_, ?_, ?_⟩
  all_goals
    first
    | exact Do_trace _ _ _ _ _
    | (simp only [OdbClient.GetCourtById, OdbClient.GetScheduleById,
        OdbClient.GetCompanyCourtsByType, OdbClient.GetCourtCases,
        OdbClient.GetTransportById, OdbClient.GetTransportLicensesById,
        OdbClient.GetLawyerById, OdbClient.GetCorruptOfficialsById,
        OdbClient.GetFullPenaltyByNumber, OdbClient.GetFullPenaltyDocByNumber,
        OdbClient.GetPenaltiesByCode, OdbClient.GetPenaltyByNumber,
        OdbClient.GetRealtyById, OdbClient.GetRealtyReportByNumber,
        checkApiKey, if_neg hk]
       exact Do_trace _ _ _ _ _)

/-- C3 (amended) witness: concrete instances of both halves — a checking
method rejects the empty identifier with no request, and an unchecked slot
method issues its one request. -/
theorem empty_identifier_check_coverage_witness :
    OdbClient.GetDpa ⟨⟨"K", none⟩⟩ "" (fun _ => Except.ok ())
        (fun _ => .response 200 .null) =
      { result := .error (.validation "Id is not specified"), trace := [] } ∧
    (OdbClient.GetCourtById ⟨⟨"K", none⟩⟩ "" (fun _ => Except.ok ())
        (fun _ => .response 200 .null)).trace =
      [requestUrl ⟨⟨"K", none⟩⟩ (sprintf courtByIdEndpoint [""]) []] :=
  ⟨(empty_identifier_check_coverage "K" none (fun _ => Except.ok ())
      (fun _ => .response 200 .null) [] "c" "s" (by decide)).2.1,
   (empty_identifier_check_coverage "K" none (fun _ => Except.ok ())
      (fun _ => .response 200 .null) [] "c" "s"
      (by decide)).2.2.2.2.2.2.2.2.2.2.1⟩

/-- C2: on a client whose configured credential is empty, every endpoint
method that requires a credential (each of the 48 methods calling
`checkApiKey`; only `GetInstitutions`, `GetKoatuuRegions` and
`GetKoatuuRegionsByCode` do not) returns `ValidationError`
(`ApiKey is not specified`) and performs no network I/O — the transport
oracle is never consulted (`trace = []`, for every oracle).  The non-empty
identifier hypotheses keep the identifier pre-checks of the ten methods that
also call `checkNotEmpty` from firing first. -/
theorem empty_credential_rejected_before_io (cl : Option Nat) {α : Type}
    (decode : Json → Except String α) (http : Http) (params : Smap)
    (code id number secret salt pib firstName lastName birthDate courtsType
      reportResultId resultId : String)
    (hcode : code ≠ "") (hid : id ≠ "") :
    OdbClient.GetGovernmentCompany ⟨⟨"", cl⟩⟩ code decode http =
      { result := .error (.validation "ApiKey is not specified"), trace := [] } ∧
    OdbClient.GetDpa ⟨⟨"", cl⟩⟩ code decode http =
      { result := .error (.validation "ApiKey is not specified"), trace := [] } ∧
    OdbClient.GetCompany ⟨⟨"", cl⟩⟩ code decode http =
      { result := .error (.validation "ApiKey is not specified"), trace := [] } ∧
    OdbClient.GetChanges ⟨⟨"", cl⟩⟩ code params decode http =
      { result := .error (.validation "ApiKey is not specified"), trace := [] } ∧
    OdbClient.GetWagedebt ⟨⟨"", cl⟩⟩ code decode http =
      { result := .error (.validation "ApiKey is not specified"), trace := [] } ∧
    OdbClient.GetAudit ⟨⟨"", cl⟩⟩ params decode http =
      { result := .error (.validation "ApiKey is not specified"), trace := [] } ∧
    OdbClient.GetAuditById ⟨⟨"", cl⟩⟩ id decode http =
      { result := .error (.validation "ApiKey is not specified"), trace := [] } ∧
    OdbClient.GetRegistrations ⟨⟨"", cl⟩⟩ params decode http =
      { result := .error (.validation "ApiKey is not specified"), trace := [] } ∧
    OdbClient.GetRegistrationById ⟨⟨"", cl⟩⟩ id decode http =
      { result := .error (.validation "ApiKey is not specified"), trace := [] } ∧
    OdbClient.GetInspections ⟨⟨"", cl⟩⟩ code decode http =
      { result := .error (.validation "ApiKey is not specified"), trace := [] } ∧
    OdbClient.GetInspectionById ⟨⟨"", cl⟩⟩ id decode http =
      { result := .error (.validation "ApiKey is not specified"), trace := [] } ∧
    OdbClient.GetPdf ⟨⟨"", cl⟩⟩ code decode http =
      { result := .error (.validation "ApiKey is not specified"), trace := [] } ∧
    OdbClient.GetPermits ⟨⟨"", cl⟩⟩ params decode http =
      { result := .error (.validation "ApiKey is not specified"), trace := [] } ∧
    OdbClient.GetSingletax ⟨⟨"", cl⟩⟩ params decode http =
      { result := .error (.validation "ApiKey is not specified"), trace := [] } ∧
    OdbClient.GetVat ⟨⟨"", cl⟩⟩ params decode http =
      { result := .error (.validation "ApiKey is not specified"), trace := [] } ∧
    OdbClient.GetCourt ⟨⟨"", cl⟩⟩ params decode http =
      { result := .error (.validation "ApiKey is not specified"), trace := [] } ∧
    OdbClient.GetCourtById ⟨⟨"", cl⟩⟩ id decode http =
      { result := .error (.validation "ApiKey is not specified"), trace := [] } ∧
    OdbClient.GetSchedule ⟨⟨"", cl⟩⟩ params decode http =
      { result := .error (.validation "ApiKey is not specified"), trace := [] } ∧
    OdbClient.GetAccused ⟨⟨"", cl⟩⟩ params decode http =
      { result := .error (.validation "ApiKey is not specified"), trace := [] } ∧
    OdbClient.GetScheduleById ⟨⟨"", cl⟩⟩ id decode http =
      { result := .error (.validation "ApiKey is not specified"), trace := [] } ∧
    OdbClient.GetCompanyCourts ⟨⟨"", cl⟩⟩ code decode http =
      { result := .error (.validation "ApiKey is not specified"), trace := [] } ∧
    OdbClient.GetCompanyCourtsByType ⟨⟨"", cl⟩⟩ courtsType code params decode http =
      { result := .error (.validation "ApiKey is not specified"), trace := [] } ∧
    OdbClient.GetCourtCases ⟨⟨"", cl⟩⟩ number params decode http =
      { result := .error (.validation "ApiKey is not specified"), trace := [] } ∧
    OdbClient.GetTransports ⟨⟨"", cl⟩⟩ params decode http =
      { result := .error (.validation "ApiKey is not specified"), trace := [] } ∧
    OdbClient.GetTransportById ⟨⟨"", cl⟩⟩ id decode http =
      { result := .error (.validation "ApiKey is not specified"), trace := [] } ∧
    OdbClient.GetTransportLicenses ⟨⟨"", cl⟩⟩ params decode http =
      { result := .error (.validation "ApiKey is not specified"), trace := [] } ∧
    OdbClient.GetTransportLicensesById ⟨⟨"", cl⟩⟩ id decode http =
      { result := .error (.validation "ApiKey is not specified"), trace := [] } ∧
    OdbClient.GetGenKey ⟨⟨"", cl⟩⟩ salt id decode http =
      { result := .error (.validation "ApiKey is not specified"), trace := [] } ∧
    OdbClient.GetStatistics ⟨⟨"", cl⟩⟩ decode http =
      { result := .error (.validation "ApiKey is not specified"), trace := [] } ∧
    OdbClient.GetAliment ⟨⟨"", cl⟩⟩ pib params decode http =
      { result := .error (.validation "ApiKey is not specified"), trace := [] } ∧
    OdbClient.GetLawyers ⟨⟨"", cl⟩⟩ params decode http =
      { result := .error (.validation "ApiKey is not specified"), trace := [] } ∧
    OdbClient.GetLawyerById ⟨⟨"", cl⟩⟩ id decode http =
      { result := .error (.validation "ApiKey is not specified"), trace := [] } ∧
    OdbClient.GetCorruptOfficialsById ⟨⟨"", cl⟩⟩ id decode http =
      { result := .error (.validation "ApiKey is not specified"), trace := [] } ∧
    OdbClient.GetCorruptOfficials ⟨⟨"", cl⟩⟩ pib params decode http =
      { result := .error (.validation "ApiKey is not specified"), trace := [] } ∧
    OdbClient.GetPassport ⟨⟨"", cl⟩⟩ number decode http =
      { result := .error (.validation "ApiKey is not specified"), trace := [] } ∧
    OdbClient.GetWanted ⟨⟨"", cl⟩⟩ pib params decode http =
      { result := .error (.validation "ApiKey is not specified"), trace := [] } ∧
    OdbClient.GetFullPenaltyByNumber ⟨⟨"", cl⟩⟩ number params decode http =
      { result := .error (.validation "ApiKey is not specified"), trace := [] } ∧
    OdbClient.GetFullPenaltyDocByNumber ⟨⟨"", cl⟩⟩ number secret decode http =
      { result := .error (.validation "ApiKey is not specified"), trace := [] } ∧
    OdbClient.GetFullPenalty ⟨⟨"", cl⟩⟩ params decode http =
      { result := .error (.validation "ApiKey is not specified"), trace := [] } ∧
    OdbClient.GetPerformer ⟨⟨"", cl⟩⟩ params decode http =
      { result := .error (.validation "ApiKey is not specified"), trace := [] } ∧
    OdbClient.GetPenaltiesByCode ⟨⟨"", cl⟩⟩ code params decode http =
      { result := .error (.validation "ApiKey is not specified"), trace := [] } ∧
    OdbClient.GetPenaltyByNumber ⟨⟨"", cl⟩⟩ number decode http =
      { result := .error (.validation "ApiKey is not specified"), trace := [] } ∧
    OdbClient.GetPenalties ⟨⟨"", cl⟩⟩ firstName lastName birthDate params decode http =
      { result := .error (.validation "ApiKey is not specified"), trace := [] } ∧
    OdbClient.GetRealty ⟨⟨"", cl⟩⟩ code params decode http =
      { result := .error (.validation "ApiKey is not specified"), trace := [] } ∧
    OdbClient.GetRealtyById ⟨⟨"", cl⟩⟩ reportResultId id decode http =
      { result := .error (.validation "ApiKey is not specified"), trace := [] } ∧
    OdbClient.GetRealtyResult ⟨⟨"", cl⟩⟩ resultId decode http =
      { result := .error (.validation "ApiKey is not specified"), trace := [] } ∧
    OdbClient.GetRealtyReportByNumber ⟨⟨"", cl⟩⟩ number decode http =
      { result := .error (.validation "ApiKey is not specified"), trace := [] } ∧
    OdbClient.GetTimeline ⟨⟨"", cl⟩⟩ params decode http =
      { result := .error (.validation "ApiKey is not specified"), trace := [] } := by
  refine ⟨?_, ?_, ?_, ?_, ?_, ?_, ?_, ?_, ?_, ?_, ?_, ?_, ?_, ?_, ?_, ?_,
    ?_, ?_, ?_, ?_, ?_, ?_, ?_, ?_, ?_, ?_, ?_, ?_, ?_, ?_, ?_, ?_,
    ?_, ?_, ?_, ?_, ?_, ?_, ?_, ?_, ?_, ?_, ?_, ?_, ?_, ?_, ?_, ?_⟩
  all_goals
    first
    | rfl
    | (simp only [OdbClient.GetGovernmentCompany, OdbClient.GetDpa,
        OdbClient.GetCompany, OdbClient.GetChanges, OdbClient.GetWagedebt,
        OdbClient.GetAuditById, OdbClient.GetRegistrationById,
        OdbClient.GetInspections, OdbClient.GetInspectionById, OdbClient.GetPdf,
        checkNotEmpty, if_neg hcode, if_neg hid, checkApiKey]
       rfl)

/-- C2 witness: a client built with no credential rejects a concrete
`GetGovernmentCompany` call before any I/O. -/
theorem empty_credential_rejected_before_io_witness :
    OdbClient.GetGovernmentCompany ⟨⟨"", none⟩⟩ "31325005" (fun _ => Except.ok ())
        (fun _ => .response 200 .null) =
      { result := .error (.validation "ApiKey is not specified"), trace := [] } :=
  (empty_credential_rejected_before_io none (fun _ => Except.ok ())
    (fun _ => .response 200 .null) [] "31325005" "1" "n" "s" "salt" "p" "f" "l" "b"
    "t" "r" "res" (by decide) (by decide)).1

/-- C10: the behaviour of `Do` and of every endpoint method is independent of
the `Settings.Client` field — two clients differing only in the transport
handle produce identical results on identical inputs, because `Do` issues
every request through the package-level `http.Get` and nothing reads
`Settings.Client`. -/
theorem client_handle_never_read (k : String) (c₁ c₂ : Option Nat)
    (endpoint : String) (params : Smap) {α : Type}
    (decode : Json → Except String α) (http : Http)
    (code id number secret salt pib firstName lastName birthDate courtsType
      reportResultId resultId : String) :
    OdbClient.Do ⟨⟨k, c₁⟩⟩ endpoint params decode http =
      OdbClient.Do ⟨⟨k, c₂⟩⟩ endpoint params decode http ∧
    OdbClient.GetGovernmentCompany ⟨⟨k, c₁⟩⟩ code decode http =
      OdbClient.GetGovernmentCompany ⟨⟨k, c₂⟩⟩ code decode http ∧
    OdbClient.GetDpa ⟨⟨k, c₁⟩⟩ code decode http =
      OdbClient.GetDpa ⟨⟨k, c₂⟩⟩ code decode http ∧
    OdbClient.GetCompany ⟨⟨k, c₁⟩⟩ code decode http =
      OdbClient.GetCompany ⟨⟨k, c₂⟩⟩ code decode http ∧
    OdbClient.GetChanges ⟨⟨k, c₁⟩⟩ code params decode http =
      OdbClient.GetChanges ⟨⟨k, c₂⟩⟩ code params decode http ∧
    OdbClient.GetWagedebt ⟨⟨k, c₁⟩⟩ code decode http =
      OdbClient.GetWagedebt ⟨⟨k, c₂⟩⟩ code decode http ∧
    OdbClient.GetAudit ⟨⟨k, c₁⟩⟩ params decode http =
      OdbClient.GetAudit ⟨⟨k, c₂⟩⟩ params decode http ∧
    OdbClient.GetAuditById ⟨⟨k, c₁⟩⟩ id decode http =
      OdbClient.GetAuditById ⟨⟨k, c₂⟩⟩ id decode http ∧
    OdbClient.GetRegistrations ⟨⟨k, c₁⟩⟩ params decode http =
      OdbClient.GetRegistrations ⟨⟨k, c₂⟩⟩ params decode http ∧
    OdbClient.GetRegistrationById ⟨⟨k, c₁⟩⟩ id decode http =
      OdbClient.GetRegistrationById ⟨⟨k, c₂⟩⟩ id decode http ∧
    OdbClient.GetInspections ⟨⟨k, c₁⟩⟩ code decode http =
      OdbClient.GetInspections ⟨⟨k, c₂⟩⟩ code decode http ∧
    OdbClient.GetInspectionById ⟨⟨k, c₁⟩⟩ id decode http =
      OdbClient.GetInspectionById ⟨⟨k, c₂⟩⟩ id decode http ∧
    OdbClient.GetPdf ⟨⟨k, c₁⟩⟩ code decode http =
      OdbClient.GetPdf ⟨⟨k, c₂⟩⟩ code decode http ∧
    OdbClient.GetPermits ⟨⟨k, c₁⟩⟩ params decode http =
      OdbClient.GetPermits ⟨⟨k, c₂⟩⟩ params decode http ∧
    OdbClient.GetSingletax ⟨⟨k, c₁⟩⟩ params decode http =
      OdbClient.GetSingletax ⟨⟨k, c₂⟩⟩ params decode http ∧
    OdbClient.GetVat ⟨⟨k, c₁⟩⟩ params decode http =
      OdbClient.GetVat ⟨⟨k, c₂⟩⟩ params decode http ∧
    OdbClient.GetCourt ⟨⟨k, c₁⟩⟩ params decode http =
      OdbClient.GetCourt ⟨⟨k, c₂⟩⟩ params decode http ∧
    OdbClient.GetInstitutions ⟨⟨k, c₁⟩⟩ params decode http =
      OdbClient.GetInstitutions ⟨⟨k, c₂⟩⟩ params decode http ∧
    OdbClient.GetCourtById ⟨⟨k, c₁⟩⟩ id decode http =
      OdbClient.GetCourtById ⟨⟨k, c₂⟩⟩ id decode http ∧
    OdbClient.GetSchedule ⟨⟨k, c₁⟩⟩ params decode http =
      OdbClient.GetSchedule ⟨⟨k, c₂⟩⟩ params decode http ∧
    OdbClient.GetAccused ⟨⟨k, c₁⟩⟩ params decode http =
      OdbClient.GetAccused ⟨⟨k, c₂⟩⟩ params decode http ∧
    OdbClient.GetScheduleById ⟨⟨k, c₁⟩⟩ id decode http =
      OdbClient.GetScheduleById ⟨⟨k, c₂⟩⟩ id decode http ∧
    OdbClient.GetCompanyCourts ⟨⟨k, c₁⟩⟩ code decode http =
      OdbClient.GetCompanyCourts ⟨⟨k, c₂⟩⟩ code decode http ∧
    OdbClient.GetCompanyCourtsByType ⟨⟨k, c₁⟩⟩ courtsType code params decode http =
      OdbClient.GetCompanyCourtsByType ⟨⟨k, c₂⟩⟩ courtsType code params decode http ∧
    OdbClient.GetCourtCases ⟨⟨k, c₁⟩⟩ number params decode http =
      OdbClient.GetCourtCases ⟨⟨k, c₂⟩⟩ number params decode http ∧
    OdbClient.GetTransports ⟨⟨k, c₁⟩⟩ params decode http =
      OdbClient.GetTransports ⟨⟨k, c₂⟩⟩ params decode http ∧
    OdbClient.GetTransportById ⟨⟨k, c₁⟩⟩ id decode http =
      OdbClient.GetTransportById ⟨⟨k, c₂⟩⟩ id decode http ∧
    OdbClient.GetTransportLicenses ⟨⟨k, c₁⟩⟩ params decode http =
      OdbClient.GetTransportLicenses ⟨⟨k, c₂⟩⟩ params decode http ∧
    OdbClient.GetTransportLicensesById ⟨⟨k, c₁⟩⟩ id decode http =
      OdbClient.GetTransportLicensesById ⟨⟨k, c₂⟩⟩ id decode http ∧
    OdbClient.GetGenKey ⟨⟨k, c₁⟩⟩ salt id decode http =
      OdbClient.GetGenKey ⟨⟨k, c₂⟩⟩ salt id decode http ∧
    OdbClient.GetStatistics ⟨⟨k, c₁⟩⟩ decode http =
      OdbClient.GetStatistics ⟨⟨k, c₂⟩⟩ decode http ∧
    OdbClient.GetAliment ⟨⟨k, c₁⟩⟩ pib params decode http =
      OdbClient.GetAliment ⟨⟨k, c₂⟩⟩ pib params decode http ∧
    OdbClient.GetLawyers ⟨⟨k, c₁⟩⟩ params decode http =
      OdbClient.GetLawyers ⟨⟨k, c₂⟩⟩ params decode http ∧
    OdbClient.GetLawyerById ⟨⟨k, c₁⟩⟩ id decode http =
      OdbClient.GetLawyerById ⟨⟨k, c₂⟩⟩ id decode http ∧
    OdbClient.GetCorruptOfficialsById ⟨⟨k, c₁⟩⟩ id decode http =
      OdbClient.GetCorruptOfficialsById ⟨⟨k, c₂⟩⟩ id decode http ∧
    OdbClient.GetCorruptOfficials ⟨⟨k, c₁⟩⟩ pib params decode http =
      OdbClient.GetCorruptOfficials ⟨⟨k, c₂⟩⟩ pib params decode http ∧
    OdbClient.GetPassport ⟨⟨k, c₁⟩⟩ number decode http =
      OdbClient.GetPassport ⟨⟨k, c₂⟩⟩ number decode http ∧
    OdbClient.GetWanted ⟨⟨k, c₁⟩⟩ pib params decode http =
      OdbClient.GetWanted ⟨⟨k, c₂⟩⟩ pib params decode http ∧
    OdbClient.GetFullPenaltyByNumber ⟨⟨k, c₁⟩⟩ number params decode http =
      OdbClient.GetFullPenaltyByNumber ⟨⟨k, c₂⟩⟩ number params decode http ∧
    OdbClient.GetFullPenaltyDocByNumber ⟨⟨k, c₁⟩⟩ number secret decode http =
      OdbClient.GetFullPenaltyDocByNumber ⟨⟨k, c₂⟩⟩ number secret decode http ∧
    OdbClient.GetFullPenalty ⟨⟨k, c₁⟩⟩ params decode http =
      OdbClient.GetFullPenalty ⟨⟨k, c₂⟩⟩ params decode http ∧
    OdbClient.GetPerformer ⟨⟨k, c₁⟩⟩ params decode http =
      OdbClient.GetPerformer ⟨⟨k, c₂⟩⟩ params decode http ∧
    OdbClient.GetPenaltiesByCode ⟨⟨k, c₁⟩⟩ code params decode http =
      OdbClient.GetPenaltiesByCode ⟨⟨k, c₂⟩⟩ code params decode http ∧
    OdbClient.GetPenaltyByNumber ⟨⟨k, c₁⟩⟩ number decode http =
      OdbClient.GetPenaltyByNumber ⟨⟨k, c₂⟩⟩ number decode http ∧
    OdbClient.GetPenalties ⟨⟨k, c₁⟩⟩ firstName lastName birthDate params decode http =
      OdbClient.GetPenalties ⟨⟨k, c₂⟩⟩ firstName lastName birthDate params decode http ∧
    OdbClient.GetKoatuuRegions ⟨⟨k, c₁⟩⟩ decode http =
      OdbClient.GetKoatuuRegions ⟨⟨k, c₂⟩⟩ decode http ∧
    OdbClient.GetKoatuuRegionsByCode ⟨⟨k, c₁⟩⟩ code decode http =
      OdbClient.GetKoatuuRegionsByCode ⟨⟨k, c₂⟩⟩ code decode http ∧
    OdbClient.GetRealty ⟨⟨k, c₁⟩⟩ code params decode http =
      OdbClient.GetRealty ⟨⟨k, c₂⟩⟩ code params decode http ∧
    OdbClient.GetRealtyById ⟨⟨k, c₁⟩⟩ reportResultId id decode http =
      OdbClient.GetRealtyById ⟨⟨k, c₂⟩⟩ reportResultId id decode http ∧
    OdbClient.GetRealtyResult ⟨⟨k, c₁⟩⟩ resultId decode http =
      OdbClient.GetRealtyResult ⟨⟨k, c₂⟩⟩ resultId decode http ∧
    OdbClient.GetRealtyReportByNumber ⟨⟨k, c₁⟩⟩ number decode http =
      OdbClient.GetRealtyReportByNumber ⟨⟨k, c₂⟩⟩ number decode http ∧
    OdbClient.GetTimeline ⟨⟨k, c₁⟩⟩ params decode http =
      OdbClient.GetTimeline ⟨⟨k, c₂⟩⟩ params decode http :=
  ⟨rfl, rfl, rfl, rfl, rfl, rfl, rfl, rfl, rfl, rfl, rfl, rfl, rfl, rfl, rfl, rfl,
   rfl, rfl, rfl, rfl, rfl, rfl, rfl, rfl, rfl, rfl, rfl, rfl, rfl, rfl, rfl, rfl,
   rfl, rfl, rfl, rfl, rfl, rfl, rfl, rfl, rfl, rfl, rfl, rfl, rfl, rfl, rfl, rfl,
   rfl, rfl, rfl, rfl⟩
